import Mathlib

/-!
Verification development for the tk-config-default2 publish collector hooks
(`hooks/tk-multi-publish2/basic/collector.py`).

The Python module defines three collector classes:
  * `SubstancePainterSessionCollector` (texturing tool),
  * `SubstanceDesignerSessionCollector` (node-graph tool),
  * `BlenderSessionCollector` (3-D content tool),
plus an unused `_session_path` helper.

The embedding below models the host framework's item tree as an explicit
registry (`CState`): `create_item` allocates a fresh item under a parent,
`set_icon_from_path` and property assignment mutate the registered item, and
UI/export calls are recorded as an event trace.  Host-application scripting
APIs (project paths, template resolution, `os.listdir`, texture export,
package enumeration) are supplied through per-collector environment records.
Python calls that can raise (`os.listdir` on a missing directory,
`export_document_maps`) are modelled as `Option`-valued environment functions;
a `none` result makes the collector function return an `Except.error` carrying
the state at the point the exception escaped.
-/

/-- Template object produced by `engine.get_template_by_name`; kept opaque
except for the name it was resolved from (the collectors never inspect it). -/
structure Template where
  name : String
deriving DecidableEq, Repr

/-- Resource kinds distinguished by the Substance Designer collector's
`isinstance` checks (lines 415 and 436): compositing graphs
(`SDSBSCompGraph`), material graphs (`SDMDLGraph`), anything else.  Each
carries the string returned by `getIdentifier()`. -/
inductive SDResource where
  | compGraph : String → SDResource
  | mdlGraph : String → SDResource
  | other : String → SDResource
deriving DecidableEq, Repr

/-- Models `resource.getIdentifier()`. -/
def SDResource.getIdentifier : SDResource → String
  | compGraph i => i
  | mdlGraph i => i
  | other i => i

/-- Models `isinstance(resource, sd.api.sbs.sdsbscompgraph.SDSBSCompGraph)`. -/
def SDResource.isCompGraph : SDResource → Bool
  | compGraph _ => true
  | _ => false

/-- Models `isinstance(resource, sd.api.mdl.sdmdlgraph.SDMDLGraph)`. -/
def SDResource.isMdlGraph : SDResource → Bool
  | mdlGraph _ => true
  | _ => false

/-- A user package as seen by the collector: `getFilePath()` and the list
returned by `getChildrenResources(isRecursive=True)`. -/
structure SDPackage where
  getFilePath : String
  getChildrenResources : List SDResource
deriving DecidableEq, Repr

/-- Values stored in an item's `properties` dictionary by the collectors:
a template object (or Python `None`) for `work_template`, plain strings for
`path` / `publish_type`, opaque package and resource handles, and the
`extra_fields` dictionary. -/
inductive PValue where
  | templateObj : Option Template → PValue
  | str : String → PValue
  | pkg : SDPackage → PValue
  | res : SDResource → PValue
  | fieldsMap : List (String × String) → PValue
deriving DecidableEq, Repr

/-- A publish item in the framework's tree: identity (`id`), the `id` of the
item it was created under, the three-part identity passed to `create_item`,
the icon assigned by `set_icon_from_path`, and the `properties` dictionary. -/
structure Item where
  id : Nat
  parent : Nat
  item_type : String
  type_display : String
  display_name : String
  icon : Option String
  properties : List (String × PValue)
deriving DecidableEq, Repr

/-- UI / export side effects traced by the embedding: `engine.show_busy`,
`engine.app.export_document_maps(path)`, `engine.clear_busy`. -/
inductive Event where
  | showBusy : Event
  | exportMapsCall : String → Event
  | clearBusy : Event
deriving DecidableEq, Repr

/-- Collection-time state: a fresh-id counter, the registry of every item
created so far (in creation order), and the event trace. -/
structure CState where
  nextId : Nat
  items : List Item
  events : List Event
deriving DecidableEq, Repr

/-- Initial state of one `process_current_session` call; id 0 is reserved for
the framework-supplied root `parent_item`. -/
def CState.empty : CState := { nextId := 1, items := [], events := [] }

/-- Python dict assignment `d[k] = v`: replace the binding if the key is
present, otherwise append it. -/
def dictSet : List (String × PValue) → String → PValue → List (String × PValue)
  | [], k, v => [(k, v)]
  | (a, b) :: t, k, v => if a = k then (a, v) :: t else (a, b) :: dictSet t k v

/-- Python dict lookup `d.get(k)` over the association list. -/
def getProp : List (String × PValue) → String → Option PValue
  | [], _ => none
  | (a, b) :: t, k => if a = k then some b else getProp t k

/-- Models `parent_item.create_item(item_type, type_display, display_name)`:
registers a fresh item (no icon, empty properties) and returns its id. -/
def CState.create_item (st : CState) (parent : Nat)
    (item_type type_display display_name : String) : Nat × CState :=
  (st.nextId,
   { st with
       nextId := st.nextId + 1,
       items := st.items ++ [{ id := st.nextId, parent := parent,
                               item_type := item_type, type_display := type_display,
                               display_name := display_name, icon := none,
                               properties := [] }] })

/-- Update the registered item with the given id in place. -/
def CState.modifyItem (st : CState) (i : Nat) (f : Item → Item) : CState :=
  { st with items := st.items.map (fun it => if it.id = i then f it else it) }

/-- Models `item.set_icon_from_path(path)`. -/
def CState.set_icon_from_path (st : CState) (i : Nat) (p : String) : CState :=
  st.modifyItem i (fun it => { it with icon := some p })

/-- Models `item.properties[k] = v`. -/
def CState.setProperty (st : CState) (i : Nat) (k : String) (v : PValue) : CState :=
  st.modifyItem i (fun it => { it with properties := dictSet it.properties k v })

/-- Record one UI / export side effect. -/
def CState.emit (st : CState) (e : Event) : CState :=
  { st with events := st.events ++ [e] }

/-- Every registered item's id is below the fresh-id counter. -/
def Wf (st : CState) : Prop := ∀ it ∈ st.items, it.id < st.nextId

/-- Index of the last occurrence of a character (Python `str.rfind`). -/
def lastIndexOf (c : Char) : List Char → Option Nat
  | [] => none
  | x :: xs =>
    match lastIndexOf c xs with
    | some i => some (i + 1)
    | none => if x = c then some 0 else none

/-- Models `os.path.split` (posixpath): split after the last slash, then strip
trailing slashes from the head unless it is empty or all slashes. -/
def os_path_split (p : String) : String × String :=
  let cs := p.data
  let i := match lastIndexOf '/' cs with
    | some j => j + 1
    | none => 0
  let head := cs.take i
  let tail := cs.drop i
  let head :=
    if head ≠ [] ∧ head.any (fun c => c ≠ '/') then
      (head.reverse.dropWhile (fun c => c = '/')).reverse
    else head
  (String.mk head, String.mk tail)

/-- Models `os.path.splitext` (genericpath): the extension starts at the last
dot, provided it lies after the last slash and some earlier character of the
file name is not a dot (so dotfiles keep their name). -/
def os_path_splitext (p : String) : String × String :=
  let cs := p.data
  let base := match lastIndexOf '/' cs with
    | some j => j + 1
    | none => 0
  match lastIndexOf '.' cs with
  | none => (p, "")
  | some dot =>
    if base ≤ dot ∧ ((cs.drop base).take (dot - base)).any (fun c => c ≠ '.') then
      (String.mk (cs.take dot), String.mk (cs.drop dot))
    else (p, "")

/-- Models `os.path.join` over the relative components used by the collectors
(`self.disk_location`, `os.pardir`, "icons", icon file name). -/
def ospathJoin (parts : List String) : String := String.intercalate "/" parts

/-- Line 36: the publish type stored on the painter session item. -/
def SESSION_PUBLISHED_TYPE : String := "Substance Painter Project File"

namespace SubstancePainterSessionCollector

/-- Settings read by the painter collector.  A field holds `some value` when
`settings.get(name)` yields a configured setting object (whose `.value` is the
template name, resp. the boolean), and `none` when the lookup finds nothing
(the `if setting:` guards in the source test exactly this). -/
structure SPSettings where
  workTemplate : Option String
  workExportTemplate : Option String
  publishTexturesAsFolder : Option Bool
deriving DecidableEq, Repr

/-- Host-side behaviour the painter collector calls into.  `listdir p = none`
models `os.listdir` raising (the directory `p` does not exist);
`export_document_maps p = none` models the export call raising. -/
structure SPEnv where
  get_current_project_path : String
  get_project_export_path : String
  get_template_by_name : String → Template
  get_fields : Template → String → List (String × String)
  apply_fields : Template → List (String × String) → String
  export_document_maps : String → Option (List (String × List (String × String)))
  listdir : String → Option (List String)
  path_exists : String → Bool
  util_filename : String → String
  disk_location : String

/-- Lines 124-158: `get_export_path`.  Resolves each configured template by
name; only when both are configured does it extract the current project
path's fields through the work template and apply them to the export
template.  Falls off the end (returns `None`) otherwise. -/
def get_export_path (env : SPEnv) (settings : SPSettings) : Option String :=
  let work_template : Option Template :=
    match settings.workTemplate with
    | some n => some (env.get_template_by_name n)
    | none => none
  let work_export_template : Option Template :=
    match settings.workExportTemplate with
    | some n => some (env.get_template_by_name n)
    | none => none
  match work_export_template, work_template with
  | some wet, some wt =>
    let path := env.get_current_project_path
    let fields := env.get_fields wt path
    let export_path := env.apply_fields wet fields
    some export_path
  | _, _ => none

/-- Lines 166-168 and 204-206: `export_path = self.get_export_path(settings)`
followed by `if not export_path: export_path = engine.app.get_project_export_path()`
(Python falsiness: `None` or the empty string trigger the fallback). -/
def resolved_export_path (env : SPEnv) (settings : SPSettings) : String :=
  match get_export_path env settings with
  | some p => if p = "" then env.get_project_export_path else p
  | none => env.get_project_export_path

/-- Lines 183-196: creation of the `substancepainter.textures` folder item
inside `collect_textures_as_folder`. -/
def textures_folder_item (env : SPEnv) (export_path : String) (parent : Nat)
    (st : CState) : CState :=
  let (tid, st) := st.create_item parent "substancepainter.textures" "Textures"
      "Substance Painter Textures"
  let icon_path := ospathJoin [env.disk_location, "..", "icons", "texture.png"]
  let st := st.set_icon_from_path tid icon_path
  let st := st.setProperty tid "path" (PValue.str export_path)
  let st := st.setProperty tid "publish_type" (PValue.str "Texture Folder")
  st

/-- Lines 160-196: `collect_textures_as_folder`.  Shows the busy indicator,
triggers the document-maps export (an exception there escapes with the busy
indicator still shown), clears the busy indicator, then — when the export
path is truthy — lists it (`os.listdir` raises if it does not exist) and
creates the folder item when the listing is non-empty. -/
def collect_textures_as_folder (env : SPEnv) (settings : SPSettings)
    (parent_item : Nat) (st : CState) : Except CState CState :=
  let export_path := resolved_export_path env settings
  let st := st.emit Event.showBusy
  let st := st.emit (Event.exportMapsCall export_path)
  match env.export_document_maps export_path with
  | none => Except.error st
  | some _map_export_info =>
    let st := st.emit Event.clearBusy
    if export_path ≠ "" then
      match env.listdir export_path with
      | none => Except.error st
      | some textures =>
        if textures.isEmpty then Except.ok st
        else Except.ok (textures_folder_item env export_path parent_item st)
    else Except.ok st

/-- Lines 222-233: creation of one `substancepainter.texture` item for an
exported texture file inside the `collect_textures` loops. -/
def texture_file_item (texture_file : String) (icon_path : String) (parent : Nat)
    (st : CState) : CState :=
  let filenamefile := (os_path_split texture_file).2
  let texture_name := (os_path_splitext filenamefile).1
  let (tid, st) := st.create_item parent "substancepainter.texture" "Texture"
      texture_name
  let st := st.set_icon_from_path tid icon_path
  let st := st.setProperty tid "path" (PValue.str texture_file)
  let st := st.setProperty tid "publish_type" (PValue.str "Texture")
  st

/-- Lines 221-233: the inner loop over `texture_set.iteritems()`; items are
created only for files that exist on disk. -/
def textureSetLoop (env : SPEnv) (parent : Nat) (icon_path : String) :
    List (String × String) → CState → CState
  | [], st => st
  | (_texture_id, texture_file) :: rest, st =>
    if env.path_exists texture_file then
      textureSetLoop env parent icon_path rest
        (texture_file_item texture_file icon_path parent st)
    else textureSetLoop env parent icon_path rest st

/-- Lines 220-233: the outer loop over `map_export_info.iteritems()`. -/
def texturesLoop (env : SPEnv) (parent : Nat) (icon_path : String) :
    List (String × List (String × String)) → CState → CState
  | [], st => st
  | (_texture_set_name, texture_set) :: rest, st =>
    texturesLoop env parent icon_path rest
      (textureSetLoop env parent icon_path texture_set st)

/-- Lines 198-233: `collect_textures` (per-texture mode).  Same busy/export
bracketing as the folder mode, then one item per exported file that exists. -/
def collect_textures (env : SPEnv) (settings : SPSettings)
    (parent_item : Nat) (st : CState) : Except CState CState :=
  let export_path := resolved_export_path env settings
  let st := st.emit Event.showBusy
  let st := st.emit (Event.exportMapsCall export_path)
  match env.export_document_maps export_path with
  | none => Except.error st
  | some map_export_info =>
    let st := st.emit Event.clearBusy
    let icon_path := ospathJoin [env.disk_location, "..", "icons", "texture.png"]
    Except.ok (texturesLoop env parent_item icon_path map_export_info st)

/-- Lines 235-287: `collect_current_substancepainter_session`.  Builds the
`substancepainter.session` item (display name falls back to the literal when
the project path is falsy) and, only when `Work Template` is configured,
stores the resolved template object together with the publish type. -/
def collect_current_substancepainter_session (env : SPEnv) (settings : SPSettings)
    (parent_item : Nat) (st : CState) : Nat × CState :=
  let path := env.get_current_project_path
  let display_name :=
    if path ≠ "" then env.util_filename path
    else "Current Substance Painter Session"
  let (sid, st) := st.create_item parent_item "substancepainter.session"
      "Substance Painter Session" display_name
  let icon_path := ospathJoin [env.disk_location, "..", "icons", "session.png"]
  let st := st.set_icon_from_path sid icon_path
  match settings.workTemplate with
  | some n =>
    let work_template := env.get_template_by_name n
    let st := st.setProperty sid "work_template" (PValue.templateObj (some work_template))
    let st := st.setProperty sid "publish_type" (PValue.str SESSION_PUBLISHED_TYPE)
    (sid, st)
  | none => (sid, st)

/-- Lines 104-122: `process_current_session`.  Builds the session item (an
item object is always truthy, so the `if item:` guard always passes), then
branches on `Publish Textures as Folder` being configured and true.  The
method itself returns `None`; the observable outcome is the final state (or
the escaping exception). -/
def process_current_session (env : SPEnv) (settings : SPSettings)
    (parent_item : Nat) (st : CState) : Except CState CState :=
  let (item, st) := collect_current_substancepainter_session env settings parent_item st
  if settings.publishTexturesAsFolder = some true then
    collect_textures_as_folder env settings item st
  else
    collect_textures env settings item st

end SubstancePainterSessionCollector

namespace SubstanceDesignerSessionCollector

/-- The designer collector's only setting, `Work Template` (`some name` when
configured). -/
structure SDSettings where
  workTemplate : Option String
deriving DecidableEq, Repr

/-- Host-side behaviour for the designer collector: the user packages returned
by `pck_man.getUserPackages()`, template resolution, and the publisher's
`util.get_file_path_components(path)["filename"]` helper. -/
structure SDEnv where
  userPackages : List SDPackage
  get_template_by_name : String → Template
  util_filename : String → String
  disk_location : String

/-- Accumulator of the resource loop (lines 410-481): the flat `items` list
(ids in creation/append order) and the two per-package flags, alongside the
registry state. -/
structure SDAcc where
  items : List Nat
  has_mdl_graphs : Bool
  has_comp_graphs : Bool
  st : CState

/-- Lines 416-434: the `substancedesigner.graph.textures` item built for a
compositing-graph resource. -/
def sd_graph_textures_item (env : SDEnv) (work_template : Option Template)
    (pck : SDPackage) (pck_item : Nat) (resource : SDResource) (st : CState) :
    Nat × CState :=
  let graph_id := resource.getIdentifier
  let (gid, st) := st.create_item pck_item "substancedesigner.graph.textures"
      "Textures" (graph_id ++ " Textures")
  let icon_path := ospathJoin [env.disk_location, "..", "icons", "texture.png"]
  let st := st.set_icon_from_path gid icon_path
  let st := st.setProperty gid "package" (PValue.pkg pck)
  let st := st.setProperty gid "resource" (PValue.res resource)
  let st := st.setProperty gid "work_template" (PValue.templateObj work_template)
  let st := st.setProperty gid "publish_type" (PValue.str "Texture Folder")
  let st := st.setProperty gid "extra_fields"
      (PValue.fieldsMap [("substancedesigner.graph.name", graph_id)])
  (gid, st)

/-- Lines 438-458: the `substancedesigner.graph.mdle` item built for a
material-graph resource. -/
def sd_graph_mdle_item (env : SDEnv) (work_template : Option Template)
    (pck : SDPackage) (pck_item : Nat) (resource : SDResource) (st : CState) :
    Nat × CState :=
  let graph_id := resource.getIdentifier
  let (gid, st) := st.create_item pck_item "substancedesigner.graph.mdle"
      "Graph as MDLE" (graph_id ++ " MDLE")
  let icon_path := ospathJoin [env.disk_location, "..", "icons",
      "substancedesigner_graph_mdle.png"]
  let st := st.set_icon_from_path gid icon_path
  let st := st.setProperty gid "package" (PValue.pkg pck)
  let st := st.setProperty gid "resource" (PValue.res resource)
  let st := st.setProperty gid "work_template" (PValue.templateObj work_template)
  let st := st.setProperty gid "publish_type" (PValue.str "MDLE File")
  let st := st.setProperty gid "extra_fields"
      (PValue.fieldsMap [("substancedesigner.graph.name", graph_id)])
  (gid, st)

/-- Lines 460-481: the `substancedesigner.graph.preset` item also built for a
material-graph resource. -/
def sd_graph_preset_item (env : SDEnv) (work_template : Option Template)
    (pck : SDPackage) (pck_item : Nat) (resource : SDResource) (st : CState) :
    Nat × CState :=
  let graph_id := resource.getIdentifier
  let (gid, st) := st.create_item pck_item "substancedesigner.graph.preset"
      "Graph as preset" (graph_id ++ " Preset(mdl)")
  let icon_path := ospathJoin [env.disk_location, "..", "icons",
      "substancedesigner_graph_preset.png"]
  let st := st.set_icon_from_path gid icon_path
  let st := st.setProperty gid "package" (PValue.pkg pck)
  let st := st.setProperty gid "resource" (PValue.res resource)
  let st := st.setProperty gid "work_template" (PValue.templateObj work_template)
  let st := st.setProperty gid "publish_type" (PValue.str "MDL File")
  let st := st.setProperty gid "extra_fields"
      (PValue.fieldsMap [("substancedesigner.graph.name", graph_id)])
  (gid, st)

/-- Lines 398-408: the `substancedesigner.package` item built per package. -/
def sd_package_item (env : SDEnv) (work_template : Option Template)
    (pck : SDPackage) (parent_item : Nat) (pck_id : String) (st : CState) :
    Nat × CState :=
  let (pid, st) := st.create_item parent_item "substancedesigner.package"
      "Substance Designer Package" pck_id
  let icon_path := ospathJoin [env.disk_location, "..", "icons",
      "substancedesigner.png"]
  let st := st.set_icon_from_path pid icon_path
  let st := st.setProperty pid "package" (PValue.pkg pck)
  let st := st.setProperty pid "work_template" (PValue.templateObj work_template)
  let st := st.setProperty pid "publish_type" (PValue.str "Substance Designer File")
  (pid, st)

/-- Lines 483-499: the `substancedesigner.package.mdl` item created when the
package contained a material graph. -/
def sd_package_mdl_item (env : SDEnv) (work_template : Option Template)
    (pck : SDPackage) (pck_item : Nat) (pck_id : String) (st : CState) :
    Nat × CState :=
  let (mid, st) := st.create_item pck_item "substancedesigner.package.mdl"
      "Package as MDL Module" (pck_id ++ " MDL Module")
  let icon_path := ospathJoin [env.disk_location, "..", "icons",
      "substancedesigner_graph_mdl.png"]
  let st := st.set_icon_from_path mid icon_path
  let st := st.setProperty mid "package" (PValue.pkg pck)
  let st := st.setProperty mid "work_template" (PValue.templateObj work_template)
  let st := st.setProperty mid "publish_type" (PValue.str "MDL File")
  (mid, st)

/-- Lines 501-519: the `substancedesigner.package.archive` item created when
the package contained a compositing graph. -/
def sd_package_archive_item (env : SDEnv) (work_template : Option Template)
    (pck : SDPackage) (pck_item : Nat) (pck_id : String) (st : CState) :
    Nat × CState :=
  let (aid, st) := st.create_item pck_item "substancedesigner.package.archive"
      "Substance Designer Package Archive" (pck_id ++ " Archive")
  let icon_path := ospathJoin [env.disk_location, "..", "icons",
      "substancedesignerarchive.png"]
  let st := st.set_icon_from_path aid icon_path
  let st := st.setProperty aid "package" (PValue.pkg pck)
  let st := st.setProperty aid "work_template" (PValue.templateObj work_template)
  let st := st.setProperty aid "publish_type" (PValue.str "Substance Designer Archive")
  (aid, st)

/-- Lines 412-481: the loop over `pck.getChildrenResources(True)`.  Each
compositing graph contributes one textures item (setting the comp flag), each
material graph contributes an mdle item and a preset item (setting the mdl
flag); every created item is appended to the flat `items` list. -/
def SDresources (env : SDEnv) (work_template : Option Template)
    (pck : SDPackage) (pck_item : Nat) :
    List SDResource → SDAcc → SDAcc
  | [], acc => acc
  | resource :: rest, acc =>
    let acc : SDAcc :=
      if resource.isCompGraph then
        let (gid, st) := sd_graph_textures_item env work_template pck pck_item resource acc.st
        { acc with items := acc.items ++ [gid], has_comp_graphs := true, st := st }
      else acc
    let acc : SDAcc :=
      if resource.isMdlGraph then
        let (g1, st) := sd_graph_mdle_item env work_template pck pck_item resource acc.st
        let (g2, st) := sd_graph_preset_item env work_template pck pck_item resource st
        { acc with items := acc.items ++ [g1] ++ [g2], has_mdl_graphs := true, st := st }
      else acc
    SDresources env work_template pck pck_item rest acc

/-- Lines 393-519: the loop over `pck_man.getUserPackages()`.  Per package:
the package item, the resource walk, then the conditional package-level MDL
module and archive items. -/
def SDpackages (env : SDEnv) (work_template : Option Template) (parent_item : Nat) :
    List SDPackage → List Nat × CState → List Nat × CState
  | [], acc => acc
  | pck :: rest, (items, st) =>
    let pck_filepath := pck.getFilePath
    let pck_id := env.util_filename pck_filepath
    let (pid, st) := sd_package_item env work_template pck parent_item pck_id st
    let items := items ++ [pid]
    let racc := SDresources env work_template pck pid pck.getChildrenResources
        { items := items, has_mdl_graphs := false, has_comp_graphs := false, st := st }
    let items := racc.items
    let st := racc.st
    let (items, st) :=
      if racc.has_mdl_graphs then
        let (mid, st) := sd_package_mdl_item env work_template pck pid pck_id st
        (items ++ [mid], st)
      else (items, st)
    let (items, st) :=
      if racc.has_comp_graphs then
        let (aid, st) := sd_package_archive_item env work_template pck pid pck_id st
        (items ++ [aid], st)
      else (items, st)
    SDpackages env work_template parent_item rest (items, st)

/-- Lines 358-523: `collect_current_substancedesigner_session`.  Resolves
`Work Template` once up front (it stays Python `None` when unconfigured),
then walks every user package, returning the flat list of created items. -/
def collect_current_substancedesigner_session (env : SDEnv) (settings : SDSettings)
    (parent_item : Nat) (st : CState) : List Nat × CState :=
  let work_template : Option Template :=
    match settings.workTemplate with
    | some n => some (env.get_template_by_name n)
    | none => none
  SDpackages env work_template parent_item env.userPackages ([], st)

/-- A Python value that is either one item object or a list of item objects;
needed because `process_current_session` appends the collected *list* to its
own `items` list. -/
inductive PyVal where
  | item : Nat → PyVal
  | itemList : List Nat → PyVal
deriving DecidableEq, Repr

/-- Lines 339-356: `process_current_session`.  `items = []`; the list built by
`collect_current_substancedesigner_session` is bound to `session_item`; the
truthiness guard `if session_item:` passes exactly when that list is
non-empty, and then `items.append(session_item)` appends the list itself as a
single element. -/
def process_current_session (env : SDEnv) (settings : SDSettings)
    (parent_item : Nat) (st : CState) : List PyVal × CState :=
  let items : List PyVal := []
  let (session_item, st) :=
    collect_current_substancedesigner_session env settings parent_item st
  let items :=
    if session_item.isEmpty then items
    else items ++ [PyVal.itemList session_item]
  (items, st)

end SubstanceDesignerSessionCollector

namespace BlenderSessionCollector

/-- The blender collector's only setting, `Work Template`. -/
structure BLSettings where
  workTemplate : Option String
deriving DecidableEq, Repr

/-- Host-side behaviour for the blender collector: `bpy.data.filepath`,
template resolution, and the file-path-components helper. -/
structure BLEnv where
  bpy_data_filepath : String
  get_template_by_name : String → Template
  util_filename : String → String
  disk_location : String

/-- Lines 602-652: `collect_current_blender_session`.  Builds the
`blender.session` item (display name falls back to the literal when
`bpy.data.filepath` is falsy) and, only when `Work Template` is configured,
stores the resolved template object together with the publish type. -/
def collect_current_blender_session (env : BLEnv) (settings : BLSettings)
    (parent_item : Nat) (st : CState) : Nat × CState :=
  let path := env.bpy_data_filepath
  let display_name :=
    if path ≠ "" then env.util_filename path
    else "Current Blender Session"
  let (sid, st) := st.create_item parent_item "blender.session" "Blender Session"
      display_name
  let icon_path := ospathJoin [env.disk_location, "..", "icons", "blender.png"]
  let st := st.set_icon_from_path sid icon_path
  match settings.workTemplate with
  | some n =>
    let work_template := env.get_template_by_name n
    let st := st.setProperty sid "work_template" (PValue.templateObj (some work_template))
    let st := st.setProperty sid "publish_type" (PValue.str "Blender Project File")
    (sid, st)
  | none => (sid, st)

/-- Lines 587-600: `_collect_session_geometry` — the single
`blender.session.geometry` child, icon only, no properties. -/
def collect_session_geometry (env : BLEnv) (parent_item : Nat) (st : CState) :
    Nat × CState :=
  let (gid, st) := st.create_item parent_item "blender.session.geometry"
      "Geometry" "All Session Geometry"
  let icon_path := ospathJoin [env.disk_location, "..", "icons", "geometry.png"]
  let st := st.set_icon_from_path gid icon_path
  (gid, st)

/-- Lines 573-585: `process_current_session` — the session item, then the
geometry child under it.  Returns `None`; the outcome is the final state. -/
def process_current_session (env : BLEnv) (settings : BLSettings)
    (parent_item : Nat) (st : CState) : CState :=
  let (item, st) := collect_current_blender_session env settings parent_item st
  let (_geo, st) := collect_session_geometry env item st
  st

end BlenderSessionCollector

/-- Lines 655-674: the module-level `_session_path` helper (unused by the
collectors): the file path of the package owning the currently focused graph,
or `None` when no graph is focused.  The UI state is passed in as the
optional current graph's owning package. -/
def session_path (currentGraphPackage : Option SDPackage) : Option String :=
  match currentGraphPackage with
  | some pck => some pck.getFilePath
  | none => none

/-- Mapping an id-guarded update over a list that does not contain the id is
the identity. -/
theorem map_update_not_mem (l : List Item) (i : Nat) (f : Item → Item)
    (h : ∀ x ∈ l, x.id ≠ i) :
    l.map (fun it => if it.id = i then f it else it) = l := by
  induction l with
  | nil => rfl
  | cons a t ih =>
    simp only [List.map_cons, List.cons.injEq]
    exact ⟨by rw [if_neg (h a (List.mem_cons_self a t))],
           ih fun x hx => h x (List.mem_cons_of_mem a hx)⟩

/-- Updating the freshly appended item rewrites only that item. -/
theorem modifyItem_snoc (n i : Nat) (l : List Item) (it : Item) (ev : List Event)
    (f : Item → Item) (hid : it.id = i) (h : ∀ x ∈ l, x.id ≠ i) :
    CState.modifyItem ⟨n, l ++ [it], ev⟩ i f = ⟨n, l ++ [f it], ev⟩ := by
  simp only [CState.modifyItem, List.map_append, List.map_cons, List.map_nil]
  rw [map_update_not_mem l i f h, if_pos hid]

/-- In a well-formed state no registered item carries the next fresh id. -/
theorem fresh_of_wf {st : CState} (h : Wf st) : ∀ x ∈ st.items, x.id ≠ st.nextId :=
  fun x hx => Nat.ne_of_lt (h x hx)

/-- Appending an item with the fresh id and bumping the counter preserves
well-formedness (for any event trace). -/
theorem Wf.snoc {st : CState} (hw : Wf st) {it : Item} (hid : it.id = st.nextId)
    (ev : List Event) : Wf ⟨st.nextId + 1, st.items ++ [it], ev⟩ := by
  intro x hx
  rcases List.mem_append.mp hx with hx | hx
  · exact Nat.lt_succ_of_lt (hw x hx)
  · rw [List.mem_singleton.mp hx, hid]; exact Nat.lt_succ_self _

/-- The empty collection state is well-formed. -/
theorem wf_empty : Wf CState.empty := by
  intro x hx
  simp [CState.empty] at hx

namespace SubstancePainterSessionCollector

/-- The fully built `substancepainter.textures` folder item. -/
def texturesFolderRec (env : SPEnv) (export_path : String) (parent i : Nat) : Item :=
  { id := i, parent := parent, item_type := "substancepainter.textures",
    type_display := "Textures", display_name := "Substance Painter Textures",
    icon := some (ospathJoin [env.disk_location, "..", "icons", "texture.png"]),
    properties := [("path", PValue.str export_path),
                   ("publish_type", PValue.str "Texture Folder")] }

/-- Net effect of the folder-item paragraph: one fully built item is appended
and the counter bumps. -/
theorem textures_folder_item_eq (env : SPEnv) (export_path : String) (parent : Nat)
    (st : CState) (hw : Wf st) :
    textures_folder_item env export_path parent st =
      ⟨st.nextId + 1, st.items ++ [texturesFolderRec env export_path parent st.nextId],
       st.events⟩ := by
  simp only [textures_folder_item, CState.create_item, CState.set_icon_from_path,
    CState.setProperty]
  rw [modifyItem_snoc _ _ _ _ _ _ rfl (fresh_of_wf hw),
      modifyItem_snoc _ _ _ _ _ _ rfl (fresh_of_wf hw),
      modifyItem_snoc _ _ _ _ _ _ rfl (fresh_of_wf hw)]
  rfl

end SubstancePainterSessionCollector

namespace SubstancePainterSessionCollector

/-- The fully built `substancepainter.session` item. -/
def spSessionRec (env : SPEnv) (settings : SPSettings) (parent i : Nat) : Item :=
  { id := i, parent := parent, item_type := "substancepainter.session",
    type_display := "Substance Painter Session",
    display_name :=
      if env.get_current_project_path ≠ "" then
        env.util_filename env.get_current_project_path
      else "Current Substance Painter Session",
    icon := some (ospathJoin [env.disk_location, "..", "icons", "session.png"]),
    properties :=
      match settings.workTemplate with
      | some n => [("work_template",
                    PValue.templateObj (some (env.get_template_by_name n))),
                   ("publish_type", PValue.str SESSION_PUBLISHED_TYPE)]
      | none => [] }

/-- Net effect of `collect_current_substancepainter_session`: exactly one
fully built session item is appended; its id is returned. -/
theorem collect_current_substancepainter_session_eq (env : SPEnv)
    (settings : SPSettings) (parent : Nat) (st : CState) (hw : Wf st) :
    collect_current_substancepainter_session env settings parent st =
      (st.nextId,
       ⟨st.nextId + 1, st.items ++ [spSessionRec env settings parent st.nextId],
        st.events⟩) := by
  cases h : settings.workTemplate with
  | none =>
    simp only [collect_current_substancepainter_session, CState.create_item,
      CState.set_icon_from_path, CState.setProperty, h, spSessionRec]
    rw [modifyItem_snoc _ _ _ _ _ _ rfl (fresh_of_wf hw)]
  | some n =>
    simp only [collect_current_substancepainter_session, CState.create_item,
      CState.set_icon_from_path, CState.setProperty, h, spSessionRec]
    rw [modifyItem_snoc _ _ _ _ _ _ rfl (fresh_of_wf hw),
        modifyItem_snoc _ _ _ _ _ _ rfl (fresh_of_wf hw),
        modifyItem_snoc _ _ _ _ _ _ rfl (fresh_of_wf hw)]
    rfl

/-- The fully built `substancepainter.texture` item for one exported file. -/
def textureFileRec (texture_file icon_path : String) (parent i : Nat) : Item :=
  { id := i, parent := parent, item_type := "substancepainter.texture",
    type_display := "Texture",
    display_name := (os_path_splitext (os_path_split texture_file).2).1,
    icon := some icon_path,
    properties := [("path", PValue.str texture_file),
                   ("publish_type", PValue.str "Texture")] }

/-- Net effect of the per-texture item paragraph. -/
theorem texture_file_item_eq (texture_file icon_path : String) (parent : Nat)
    (st : CState) (hw : Wf st) :
    texture_file_item texture_file icon_path parent st =
      ⟨st.nextId + 1,
       st.items ++ [textureFileRec texture_file icon_path parent st.nextId],
       st.events⟩ := by
  simp only [texture_file_item, CState.create_item, CState.set_icon_from_path,
    CState.setProperty]
  rw [modifyItem_snoc _ _ _ _ _ _ rfl (fresh_of_wf hw),
      modifyItem_snoc _ _ _ _ _ _ rfl (fresh_of_wf hw),
      modifyItem_snoc _ _ _ _ _ _ rfl (fresh_of_wf hw)]
  rfl

end SubstancePainterSessionCollector

namespace SubstanceDesignerSessionCollector

/-- The fully built `substancedesigner.package` item. -/
def sdPackageRec (env : SDEnv) (work_template : Option Template) (pck : SDPackage)
    (pck_id : String) (parent i : Nat) : Item :=
  { id := i, parent := parent, item_type := "substancedesigner.package",
    type_display := "Substance Designer Package", display_name := pck_id,
    icon := some (ospathJoin [env.disk_location, "..", "icons",
      "substancedesigner.png"]),
    properties := [("package", PValue.pkg pck),
                   ("work_template", PValue.templateObj work_template),
                   ("publish_type", PValue.str "Substance Designer File")] }

/-- Net effect of the package-item paragraph. -/
theorem sd_package_item_eq (env : SDEnv) (work_template : Option Template)
    (pck : SDPackage) (parent : Nat) (pck_id : String) (st : CState) (hw : Wf st) :
    sd_package_item env work_template pck parent pck_id st =
      (st.nextId,
       ⟨st.nextId + 1,
        st.items ++ [sdPackageRec env work_template pck pck_id parent st.nextId],
        st.events⟩) := by
  simp only [sd_package_item, CState.create_item, CState.set_icon_from_path,
    CState.setProperty]
  rw [modifyItem_snoc _ _ _ _ _ _ rfl (fresh_of_wf hw),
      modifyItem_snoc _ _ _ _ _ _ rfl (fresh_of_wf hw),
      modifyItem_snoc _ _ _ _ _ _ rfl (fresh_of_wf hw),
      modifyItem_snoc _ _ _ _ _ _ rfl (fresh_of_wf hw)]
  rfl

/-- The fully built `substancedesigner.graph.textures` item. -/
def sdGraphTexturesRec (env : SDEnv) (work_template : Option Template)
    (pck : SDPackage) (resource : SDResource) (parent i : Nat) : Item :=
  { id := i, parent := parent, item_type := "substancedesigner.graph.textures",
    type_display := "Textures",
    display_name := resource.getIdentifier ++ " Textures",
    icon := some (ospathJoin [env.disk_location, "..", "icons", "texture.png"]),
    properties := [("package", PValue.pkg pck),
                   ("resource", PValue.res resource),
                   ("work_template", PValue.templateObj work_template),
                   ("publish_type", PValue.str "Texture Folder"),
                   ("extra_fields", PValue.fieldsMap
                     [("substancedesigner.graph.name", resource.getIdentifier)])] }

/-- Net effect of the compositing-graph item paragraph. -/
theorem sd_graph_textures_item_eq (env : SDEnv) (work_template : Option Template)
    (pck : SDPackage) (pck_item : Nat) (resource : SDResource) (st : CState)
    (hw : Wf st) :
    sd_graph_textures_item env work_template pck pck_item resource st =
      (st.nextId,
       ⟨st.nextId + 1,
        st.items ++ [sdGraphTexturesRec env work_template pck resource pck_item st.nextId],
        st.events⟩) := by
  simp only [sd_graph_textures_item, CState.create_item, CState.set_icon_from_path,
    CState.setProperty]
  rw [modifyItem_snoc _ _ _ _ _ _ rfl (fresh_of_wf hw),
      modifyItem_snoc _ _ _ _ _ _ rfl (fresh_of_wf hw),
      modifyItem_snoc _ _ _ _ _ _ rfl (fresh_of_wf hw),
      modifyItem_snoc _ _ _ _ _ _ rfl (fresh_of_wf hw),
      modifyItem_snoc _ _ _ _ _ _ rfl (fresh_of_wf hw),
      modifyItem_snoc _ _ _ _ _ _ rfl (fresh_of_wf hw)]
  rfl

/-- The fully built `substancedesigner.graph.mdle` item. -/
def sdGraphMdleRec (env : SDEnv) (work_template : Option Template)
    (pck : SDPackage) (resource : SDResource) (parent i : Nat) : Item :=
  { id := i, parent := parent, item_type := "substancedesigner.graph.mdle",
    type_display := "Graph as MDLE",
    display_name := resource.getIdentifier ++ " MDLE",
    icon := some (ospathJoin [env.disk_location, "..", "icons",
      "substancedesigner_graph_mdle.png"]),
    properties := [("package", PValue.pkg pck),
                   ("resource", PValue.res resource),
                   ("work_template", PValue.templateObj work_template),
                   ("publish_type", PValue.str "MDLE File"),
                   ("extra_fields", PValue.fieldsMap
                     [("substancedesigner.graph.name", resource.getIdentifier)])] }

/-- Net effect of the material-graph MDLE item paragraph. -/
theorem sd_graph_mdle_item_eq (env : SDEnv) (work_template : Option Template)
    (pck : SDPackage) (pck_item : Nat) (resource : SDResource) (st : CState)
    (hw : Wf st) :
    sd_graph_mdle_item env work_template pck pck_item resource st =
      (st.nextId,
       ⟨st.nextId + 1,
        st.items ++ [sdGraphMdleRec env work_template pck resource pck_item st.nextId],
        st.events⟩) := by
  simp only [sd_graph_mdle_item, CState.create_item, CState.set_icon_from_path,
    CState.setProperty]
  rw [modifyItem_snoc _ _ _ _ _ _ rfl (fresh_of_wf hw),
      modifyItem_snoc _ _ _ _ _ _ rfl (fresh_of_wf hw),
      modifyItem_snoc _ _ _ _ _ _ rfl (fresh_of_wf hw),
      modifyItem_snoc _ _ _ _ _ _ rfl (fresh_of_wf hw),
      modifyItem_snoc _ _ _ _ _ _ rfl (fresh_of_wf hw),
      modifyItem_snoc _ _ _ _ _ _ rfl (fresh_of_wf hw)]
  rfl

/-- The fully built `substancedesigner.graph.preset` item. -/
def sdGraphPresetRec (env : SDEnv) (work_template : Option Template)
    (pck : SDPackage) (resource : SDResource) (parent i : Nat) : Item :=
  { id := i, parent := parent, item_type := "substancedesigner.graph.preset",
    type_display := "Graph as preset",
    display_name := resource.getIdentifier ++ " Preset(mdl)",
    icon := some (ospathJoin [env.disk_location, "..", "icons",
      "substancedesigner_graph_preset.png"]),
    properties := [("package", PValue.pkg pck),
                   ("resource", PValue.res resource),
                   ("work_template", PValue.templateObj work_template),
                   ("publish_type", PValue.str "MDL File"),
                   ("extra_fields", PValue.fieldsMap
                     [("substancedesigner.graph.name", resource.getIdentifier)])] }

/-- Net effect of the material-graph preset item paragraph. -/
theorem sd_graph_preset_item_eq (env : SDEnv) (work_template : Option Template)
    (pck : SDPackage) (pck_item : Nat) (resource : SDResource) (st : CState)
    (hw : Wf st) :
    sd_graph_preset_item env work_template pck pck_item resource st =
      (st.nextId,
       ⟨st.nextId + 1,
        st.items ++ [sdGraphPresetRec env work_template pck resource pck_item st.nextId],
        st.events⟩) := by
  simp only [sd_graph_preset_item, CState.create_item, CState.set_icon_from_path,
    CState.setProperty]
  rw [modifyItem_snoc _ _ _ _ _ _ rfl (fresh_of_wf hw),
      modifyItem_snoc _ _ _ _ _ _ rfl (fresh_of_wf hw),
      modifyItem_snoc _ _ _ _ _ _ rfl (fresh_of_wf hw),
      modifyItem_snoc _ _ _ _ _ _ rfl (fresh_of_wf hw),
      modifyItem_snoc _ _ _ _ _ _ rfl (fresh_of_wf hw),
      modifyItem_snoc _ _ _ _ _ _ rfl (fresh_of_wf hw)]
  rfl

/-- The fully built `substancedesigner.package.mdl` item. -/
def sdPackageMdlRec (env : SDEnv) (work_template : Option Template)
    (pck : SDPackage) (pck_id : String) (parent i : Nat) : Item :=
  { id := i, parent := parent, item_type := "substancedesigner.package.mdl",
    type_display := "Package as MDL Module",
    display_name := pck_id ++ " MDL Module",
    icon := some (ospathJoin [env.disk_location, "..", "icons",
      "substancedesigner_graph_mdl.png"]),
    properties := [("package", PValue.pkg pck),
                   ("work_template", PValue.templateObj work_template),
                   ("publish_type", PValue.str "MDL File")] }

/-- Net effect of the package-level MDL module item paragraph. -/
theorem sd_package_mdl_item_eq (env : SDEnv) (work_template : Option Template)
    (pck : SDPackage) (pck_item : Nat) (pck_id : String) (st : CState) (hw : Wf st) :
    sd_package_mdl_item env work_template pck pck_item pck_id st =
      (st.nextId,
       ⟨st.nextId + 1,
        st.items ++ [sdPackageMdlRec env work_template pck pck_id pck_item st.nextId],
        st.events⟩) := by
  simp only [sd_package_mdl_item, CState.create_item, CState.set_icon_from_path,
    CState.setProperty]
  rw [modifyItem_snoc _ _ _ _ _ _ rfl (fresh_of_wf hw),
      modifyItem_snoc _ _ _ _ _ _ rfl (fresh_of_wf hw),
      modifyItem_snoc _ _ _ _ _ _ rfl (fresh_of_wf hw),
      modifyItem_snoc _ _ _ _ _ _ rfl (fresh_of_wf hw)]
  rfl

/-- The fully built `substancedesigner.package.archive` item. -/
def sdPackageArchiveRec (env : SDEnv) (work_template : Option Template)
    (pck : SDPackage) (pck_id : String) (parent i : Nat) : Item :=
  { id := i, parent := parent, item_type := "substancedesigner.package.archive",
    type_display := "Substance Designer Package Archive",
    display_name := pck_id ++ " Archive",
    icon := some (ospathJoin [env.disk_location, "..", "icons",
      "substancedesignerarchive.png"]),
    properties := [("package", PValue.pkg pck),
                   ("work_template", PValue.templateObj work_template),
                   ("publish_type", PValue.str "Substance Designer Archive")] }

/-- Net effect of the package-archive item paragraph. -/
theorem sd_package_archive_item_eq (env : SDEnv) (work_template : Option Template)
    (pck : SDPackage) (pck_item : Nat) (pck_id : String) (st : CState) (hw : Wf st) :
    sd_package_archive_item env work_template pck pck_item pck_id st =
      (st.nextId,
       ⟨st.nextId + 1,
        st.items ++ [sdPackageArchiveRec env work_template pck pck_id pck_item st.nextId],
        st.events⟩) := by
  simp only [sd_package_archive_item, CState.create_item, CState.set_icon_from_path,
    CState.setProperty]
  rw [modifyItem_snoc _ _ _ _ _ _ rfl (fresh_of_wf hw),
      modifyItem_snoc _ _ _ _ _ _ rfl (fresh_of_wf hw),
      modifyItem_snoc _ _ _ _ _ _ rfl (fresh_of_wf hw),
      modifyItem_snoc _ _ _ _ _ _ rfl (fresh_of_wf hw)]
  rfl

end SubstanceDesignerSessionCollector

namespace BlenderSessionCollector

/-- The fully built `blender.session` item. -/
def blSessionRec (env : BLEnv) (settings : BLSettings) (parent i : Nat) : Item :=
  { id := i, parent := parent, item_type := "blender.session",
    type_display := "Blender Session",
    display_name :=
      if env.bpy_data_filepath ≠ "" then env.util_filename env.bpy_data_filepath
      else "Current Blender Session",
    icon := some (ospathJoin [env.disk_location, "..", "icons", "blender.png"]),
    properties :=
      match settings.workTemplate with
      | some n => [("work_template",
                    PValue.templateObj (some (env.get_template_by_name n))),
                   ("publish_type", PValue.str "Blender Project File")]
      | none => [] }

/-- Net effect of `collect_current_blender_session`. -/
theorem collect_current_blender_session_eq (env : BLEnv) (settings : BLSettings)
    (parent : Nat) (st : CState) (hw : Wf st) :
    collect_current_blender_session env settings parent st =
      (st.nextId,
       ⟨st.nextId + 1, st.items ++ [blSessionRec env settings parent st.nextId],
        st.events⟩) := by
  cases h : settings.workTemplate with
  | none =>
    simp only [collect_current_blender_session, CState.create_item,
      CState.set_icon_from_path, CState.setProperty, h, blSessionRec]
    rw [modifyItem_snoc _ _ _ _ _ _ rfl (fresh_of_wf hw)]
  | some n =>
    simp only [collect_current_blender_session, CState.create_item,
      CState.set_icon_from_path, CState.setProperty, h, blSessionRec]
    rw [modifyItem_snoc _ _ _ _ _ _ rfl (fresh_of_wf hw),
        modifyItem_snoc _ _ _ _ _ _ rfl (fresh_of_wf hw),
        modifyItem_snoc _ _ _ _ _ _ rfl (fresh_of_wf hw)]
    rfl

/-- The fully built `blender.session.geometry` item: icon only, no
properties. -/
def blGeometryRec (env : BLEnv) (parent i : Nat) : Item :=
  { id := i, parent := parent, item_type := "blender.session.geometry",
    type_display := "Geometry", display_name := "All Session Geometry",
    icon := some (ospathJoin [env.disk_location, "..", "icons", "geometry.png"]),
    properties := [] }

/-- Net effect of `_collect_session_geometry`. -/
theorem collect_session_geometry_eq (env : BLEnv) (parent : Nat) (st : CState)
    (hw : Wf st) :
    collect_session_geometry env parent st =
      (st.nextId,
       ⟨st.nextId + 1, st.items ++ [blGeometryRec env parent st.nextId],
        st.events⟩) := by
  simp only [collect_session_geometry, CState.create_item,
    CState.set_icon_from_path]
  rw [modifyItem_snoc _ _ _ _ _ _ rfl (fresh_of_wf hw)]
  rfl

end BlenderSessionCollector

namespace SubstancePainterSessionCollector

/-- The observable shape of one created texture item used to compare against
the export result: type, display name, `path` property, `publish_type`
property. -/
def textureView (it : Item) : String × String × Option PValue × Option PValue :=
  (it.item_type, it.display_name, getProp it.properties "path",
   getProp it.properties "publish_type")

/-- The view a texture-set entry should produce when its file exists. -/
def expectedTextureView (texture_file : String) :
    String × String × Option PValue × Option PValue :=
  ("substancepainter.texture", (os_path_splitext (os_path_split texture_file).2).1,
   some (PValue.str texture_file), some (PValue.str "Texture"))

/-- Characterization of the inner texture loop: it appends exactly one fully
built item per entry whose file exists (in entry order), touches neither the
counter beyond that nor the events, never stores a `work_template`, and
preserves well-formedness. -/
theorem textureSetLoop_char (env : SPEnv) (parent : Nat) (icon_path : String)
    (ts : List (String × String)) :
    ∀ st : CState, Wf st →
    ∃ new : List Item,
      textureSetLoop env parent icon_path ts st =
        ⟨st.nextId + new.length, st.items ++ new, st.events⟩ ∧
      new.map textureView =
        ts.filterMap (fun tf =>
          if env.path_exists tf.2 then some (expectedTextureView tf.2) else none) ∧
      (∀ it ∈ new, getProp it.properties "work_template" = none) ∧
      Wf ⟨st.nextId + new.length, st.items ++ new, st.events⟩ := by
  induction ts with
  | nil =>
    intro st hw
    exact ⟨[], by simp [textureSetLoop], by simp, by simp, by simpa using hw⟩
  | cons hd rest ih =>
    intro st hw
    obtain ⟨tid, tf⟩ := hd
    by_cases hpe : env.path_exists tf = true
    · have hw1 : Wf ⟨st.nextId + 1,
          st.items ++ [textureFileRec tf icon_path parent st.nextId], st.events⟩ :=
        Wf.snoc hw rfl st.events
      obtain ⟨new1, heq, hview, hwt, hwf⟩ := ih _ hw1
      refine ⟨textureFileRec tf icon_path parent st.nextId :: new1, ?_, ?_, ?_, ?_⟩
      · simp only [textureSetLoop, hpe, if_pos,
          texture_file_item_eq tf icon_path parent st hw]
        rw [heq]
        simp [List.append_assoc, Nat.add_assoc, Nat.add_comm 1]
      · simp only [List.map_cons, List.filterMap_cons, hpe, if_pos, hview]
        rfl
      · intro it hit
        rcases List.mem_cons.mp hit with h | h
        · subst h; rfl
        · exact hwt it h
      · have := hwf
        simp only [List.length_cons] at this ⊢
        simpa [List.append_assoc, Nat.add_assoc, Nat.add_comm 1] using this
    · have hpe' : env.path_exists tf = false := by
        revert hpe; cases env.path_exists tf <;> simp
      obtain ⟨new1, heq, hview, hwt, hwf⟩ := ih st hw
      refine ⟨new1, ?_, ?_, hwt, hwf⟩
      · simp only [textureSetLoop, hpe']
        simpa using heq
      · simp only [List.filterMap_cons, hpe']
        simpa using hview

/-- Characterization of the outer texture loop over the export result. -/
theorem texturesLoop_char (env : SPEnv) (parent : Nat) (icon_path : String)
    (m : List (String × List (String × String))) :
    ∀ st : CState, Wf st →
    ∃ new : List Item,
      texturesLoop env parent icon_path m st =
        ⟨st.nextId + new.length, st.items ++ new, st.events⟩ ∧
      new.map textureView =
        (m.flatMap (fun ts => ts.2)).filterMap (fun tf =>
          if env.path_exists tf.2 then some (expectedTextureView tf.2) else none) ∧
      (∀ it ∈ new, getProp it.properties "work_template" = none) ∧
      Wf ⟨st.nextId + new.length, st.items ++ new, st.events⟩ := by
  induction m with
  | nil =>
    intro st hw
    exact ⟨[], by simp [texturesLoop], by simp, by simp, by simpa using hw⟩
  | cons hd rest ih =>
    intro st hw
    obtain ⟨setname, ts⟩ := hd
    obtain ⟨new1, heq1, hview1, hwt1, hwf1⟩ := textureSetLoop_char env parent icon_path ts st hw
    obtain ⟨new2, heq2, hview2, hwt2, hwf2⟩ := ih _ hwf1
    refine ⟨new1 ++ new2, ?_, ?_, ?_, ?_⟩
    · simp only [texturesLoop, heq1, heq2]
      simp [List.append_assoc, List.length_append, Nat.add_assoc]
    · simp only [List.map_append, hview1, hview2, List.flatMap_cons,
        List.filterMap_append]
    · intro it hit
      rcases List.mem_append.mp hit with h | h
      · exact hwt1 it h
      · exact hwt2 it h
    · simp only [List.length_append] at hwf2 ⊢
      simpa [List.append_assoc, Nat.add_assoc] using hwf2

end SubstancePainterSessionCollector

namespace SubstanceDesignerSessionCollector

/-- Item types the resource loop creates for one resource: one textures item
per compositing graph, an mdle and a preset item per material graph. -/
def tyOfRes : SDResource → List String
  | SDResource.compGraph _ => ["substancedesigner.graph.textures"]
  | SDResource.mdlGraph _ =>
      ["substancedesigner.graph.mdle", "substancedesigner.graph.preset"]
  | SDResource.other _ => []

/-- One loop step on a compositing-graph resource. -/
theorem SDresources_cons_comp (env : SDEnv) (wt : Option Template) (pck : SDPackage)
    (pid : Nat) (g : String) (rest : List SDResource) (items0 : List Nat)
    (hm0 hc0 : Bool) (st : CState) :
    SDresources env wt pck pid (SDResource.compGraph g :: rest) ⟨items0, hm0, hc0, st⟩ =
      SDresources env wt pck pid rest
        ⟨items0 ++ [(sd_graph_textures_item env wt pck pid (SDResource.compGraph g) st).1],
         hm0, true,
         (sd_graph_textures_item env wt pck pid (SDResource.compGraph g) st).2⟩ := rfl

/-- One loop step on a material-graph resource. -/
theorem SDresources_cons_mdl (env : SDEnv) (wt : Option Template) (pck : SDPackage)
    (pid : Nat) (g : String) (rest : List SDResource) (items0 : List Nat)
    (hm0 hc0 : Bool) (st : CState) :
    SDresources env wt pck pid (SDResource.mdlGraph g :: rest) ⟨items0, hm0, hc0, st⟩ =
      SDresources env wt pck pid rest
        ⟨items0 ++ [(sd_graph_mdle_item env wt pck pid (SDResource.mdlGraph g) st).1]
           ++ [(sd_graph_preset_item env wt pck pid (SDResource.mdlGraph g)
                 (sd_graph_mdle_item env wt pck pid (SDResource.mdlGraph g) st).2).1],
         true, hc0,
         (sd_graph_preset_item env wt pck pid (SDResource.mdlGraph g)
           (sd_graph_mdle_item env wt pck pid (SDResource.mdlGraph g) st).2).2⟩ := rfl

/-- One loop step on any other resource: nothing happens. -/
theorem SDresources_cons_other (env : SDEnv) (wt : Option Template) (pck : SDPackage)
    (pid : Nat) (g : String) (rest : List SDResource) (items0 : List Nat)
    (hm0 hc0 : Bool) (st : CState) :
    SDresources env wt pck pid (SDResource.other g :: rest) ⟨items0, hm0, hc0, st⟩ =
      SDresources env wt pck pid rest ⟨items0, hm0, hc0, st⟩ := rfl

/-- Characterization of the resource loop: it appends the items dictated by
`tyOfRes` (in resource order), returns their ids appended to the incoming
flat list, computes the two flags as disjunctions with the incoming flags,
stores the up-front template object on every created item, leaves the event
trace alone, and preserves well-formedness. -/
theorem SDresources_char (env : SDEnv) (wt : Option Template) (pck : SDPackage)
    (pid : Nat) (rs : List SDResource) :
    ∀ (items0 : List Nat) (hm0 hc0 : Bool) (st : CState), Wf st →
    ∃ new : List Item,
      SDresources env wt pck pid rs ⟨items0, hm0, hc0, st⟩ =
        ⟨items0 ++ new.map (fun it => it.id),
         hm0 || rs.any SDResource.isMdlGraph,
         hc0 || rs.any SDResource.isCompGraph,
         ⟨st.nextId + new.length, st.items ++ new, st.events⟩⟩ ∧
      new.map (fun it => it.item_type) = rs.flatMap tyOfRes ∧
      (∀ it ∈ new, getProp it.properties "work_template" =
        some (PValue.templateObj wt)) ∧
      Wf ⟨st.nextId + new.length, st.items ++ new, st.events⟩ := by
  induction rs with
  | nil =>
    intro items0 hm0 hc0 st hw
    exact ⟨[], by simp [SDresources], by simp, by simp, by simpa using hw⟩
  | cons resource rest ih =>
    intro items0 hm0 hc0 st hw
    cases resource with
    | compGraph g =>
      have hw1 : Wf ⟨st.nextId + 1,
          st.items ++ [sdGraphTexturesRec env wt pck (SDResource.compGraph g) pid st.nextId],
          st.events⟩ := Wf.snoc hw rfl st.events
      obtain ⟨new1, heq, hty, hwt, hwf⟩ := ih (items0 ++ [st.nextId]) hm0 true
        ⟨st.nextId + 1,
         st.items ++ [sdGraphTexturesRec env wt pck (SDResource.compGraph g) pid st.nextId],
         st.events⟩ hw1
      refine ⟨sdGraphTexturesRec env wt pck (SDResource.compGraph g) pid st.nextId :: new1,
        ?_, ?_, ?_, ?_⟩
      · rw [SDresources_cons_comp]
        simp only [sd_graph_textures_item_eq env wt pck pid (SDResource.compGraph g) st hw]
        rw [heq]
        simp [sdGraphTexturesRec, List.any_cons, SDResource.isMdlGraph,
          SDResource.isCompGraph, List.append_assoc, Nat.add_assoc, Nat.add_comm 1]
      · simp only [List.map_cons, hty, tyOfRes, List.flatMap_cons]
        rfl
      · intro it hit
        rcases List.mem_cons.mp hit with h | h
        · subst h; rfl
        · exact hwt it h
      · simp only [List.length_cons] at hwf ⊢
        simpa [List.append_assoc, Nat.add_assoc, Nat.add_comm 1] using hwf
    | mdlGraph g =>
      have hw1 : Wf ⟨st.nextId + 1,
          st.items ++ [sdGraphMdleRec env wt pck (SDResource.mdlGraph g) pid st.nextId],
          st.events⟩ := Wf.snoc hw rfl st.events
      have hw2 : Wf ⟨st.nextId + 1 + 1,
          (st.items ++ [sdGraphMdleRec env wt pck (SDResource.mdlGraph g) pid st.nextId])
            ++ [sdGraphPresetRec env wt pck (SDResource.mdlGraph g) pid (st.nextId + 1)],
          st.events⟩ := Wf.snoc hw1 rfl st.events
      obtain ⟨new1, heq, hty, hwt, hwf⟩ := ih
        (items0 ++ [st.nextId] ++ [st.nextId + 1]) true hc0
        ⟨st.nextId + 1 + 1,
         (st.items ++ [sdGraphMdleRec env wt pck (SDResource.mdlGraph g) pid st.nextId])
           ++ [sdGraphPresetRec env wt pck (SDResource.mdlGraph g) pid (st.nextId + 1)],
         st.events⟩ hw2
      refine ⟨sdGraphMdleRec env wt pck (SDResource.mdlGraph g) pid st.nextId ::
        sdGraphPresetRec env wt pck (SDResource.mdlGraph g) pid (st.nextId + 1) :: new1,
        ?_, ?_, ?_, ?_⟩
      · rw [SDresources_cons_mdl]
        simp only [sd_graph_mdle_item_eq env wt pck pid (SDResource.mdlGraph g) st hw]
        simp only [sd_graph_preset_item_eq env wt pck pid (SDResource.mdlGraph g)
          ⟨st.nextId + 1,
           st.items ++ [sdGraphMdleRec env wt pck (SDResource.mdlGraph g) pid st.nextId],
           st.events⟩ hw1]
        rw [heq]
        simp [sdGraphMdleRec, sdGraphPresetRec, List.any_cons, SDResource.isMdlGraph,
          SDResource.isCompGraph, List.append_assoc, Nat.add_assoc, Nat.add_comm 1,
          Nat.add_comm 2]
      · simp only [List.map_cons, hty, tyOfRes, List.flatMap_cons]
        rfl
      · intro it hit
        rcases List.mem_cons.mp hit with h | h
        · subst h; rfl
        · rcases List.mem_cons.mp h with h2 | h2
          · subst h2; rfl
          · exact hwt it h2
      · simp only [List.length_cons] at hwf ⊢
        have h2 : st.nextId + 1 + 1 + new1.length = st.nextId + (new1.length + 1 + 1) := by
          omega
        simpa [List.append_assoc, h2] using hwf
    | other g =>
      obtain ⟨new1, heq, hty, hwt, hwf⟩ := ih items0 hm0 hc0 st hw
      refine ⟨new1, ?_, ?_, hwt, hwf⟩
      · rw [SDresources_cons_other, heq]
        simp [List.any_cons, SDResource.isMdlGraph, SDResource.isCompGraph]
      · simp only [tyOfRes, List.flatMap_cons, hty]
        rfl

end SubstanceDesignerSessionCollector

/-- Transport of well-formedness along component equalities (the event trace
is irrelevant to `Wf`). -/
theorem wf_of_eq {st1 st2 : CState} (h : Wf st1) (hn : st1.nextId = st2.nextId)
    (hl : st1.items = st2.items) : Wf st2 := by
  intro x hx
  rw [← hl] at hx
  rw [← hn]
  exact h x hx

namespace SubstanceDesignerSessionCollector

/-- Item types the package loop creates for one package: the package item,
the per-resource graph items, then the conditional package-level MDL module
and archive items. -/
def pckTys (pck : SDPackage) : List String :=
  "substancedesigner.package" ::
    (pck.getChildrenResources.flatMap tyOfRes ++
     (if pck.getChildrenResources.any SDResource.isMdlGraph then
        ["substancedesigner.package.mdl"] else []) ++
     (if pck.getChildrenResources.any SDResource.isCompGraph then
        ["substancedesigner.package.archive"] else []))

/-- Characterization of the package loop: it appends, per package, the fully
built items dictated by `pckTys`, returns their ids appended to the incoming
flat list, stores the up-front template object on every created item, leaves
the event trace alone, and preserves well-formedness. -/
theorem SDpackages_char (env : SDEnv) (wt : Option Template) (parent : Nat)
    (pcks : List SDPackage) :
    ∀ (items0 : List Nat) (st : CState), Wf st →
    ∃ new : List Item,
      SDpackages env wt parent pcks (items0, st) =
        (items0 ++ new.map (fun it => it.id),
         ⟨st.nextId + new.length, st.items ++ new, st.events⟩) ∧
      new.map (fun it => it.item_type) = pcks.flatMap pckTys ∧
      (∀ it ∈ new, getProp it.properties "work_template" =
        some (PValue.templateObj wt)) ∧
      Wf ⟨st.nextId + new.length, st.items ++ new, st.events⟩ := by
  induction pcks with
  | nil =>
    intro items0 st hw
    exact ⟨[], by simp [SDpackages], by simp, by simp, by simpa using hw⟩
  | cons pck rest ih =>
    intro items0 st hw
    have hw1 : Wf ⟨st.nextId + 1,
        st.items ++ [sdPackageRec env wt pck (env.util_filename pck.getFilePath)
          parent st.nextId], st.events⟩ := Wf.snoc hw rfl st.events
    obtain ⟨newr, heqR, htyR, hwtR, hwfR⟩ :=
      SDresources_char env wt pck st.nextId pck.getChildrenResources
        (items0 ++ [st.nextId]) false false
        ⟨st.nextId + 1,
         st.items ++ [sdPackageRec env wt pck (env.util_filename pck.getFilePath)
           parent st.nextId], st.events⟩ hw1
    have hwfR' : Wf ⟨st.nextId + 1 + newr.length,
        st.items ++ [sdPackageRec env wt pck (env.util_filename pck.getFilePath)
          parent st.nextId] ++ newr, st.events⟩ := hwfR
    cases hm : pck.getChildrenResources.any SDResource.isMdlGraph with
    | false =>
      cases hc : pck.getChildrenResources.any SDResource.isCompGraph with
      | false =>
        obtain ⟨newrest, heq2, hty2, hwt2, hwf2⟩ := ih
          (items0 ++ [st.nextId] ++ List.map (fun it => it.id) newr)
          ⟨st.nextId + 1 + newr.length,
           st.items ++ [sdPackageRec env wt pck (env.util_filename pck.getFilePath)
             parent st.nextId] ++ newr, st.events⟩ hwfR'
        refine ⟨sdPackageRec env wt pck (env.util_filename pck.getFilePath)
          parent st.nextId :: (newr ++ newrest), ?_, ?_, ?_, ?_⟩
        · simp only [SDpackages]
          simp only [sd_package_item_eq env wt pck parent
            (env.util_filename pck.getFilePath) st hw]
          rw [heqR]
          simp only [Bool.false_or, hm, hc, Bool.false_eq_true, if_false]
          rw [heq2]
          simp only [Prod.mk.injEq, CState.mk.injEq, List.map_cons, List.map_append,
            List.length_cons, List.length_append, List.length_map, List.append_assoc,
            List.singleton_append, List.cons_append, List.nil_append, sdPackageRec,
            and_true, true_and]
          omega
        · simp only [List.map_cons, List.map_append, htyR, hty2, List.flatMap_cons,
            pckTys, hm, hc, Bool.false_eq_true, if_false, sdPackageRec,
            List.append_nil, List.append_assoc, List.singleton_append, List.cons_append]
        · intro it hit
          rcases List.mem_cons.mp hit with h | h
          · subst h; rfl
          · rcases List.mem_append.mp h with h2 | h2
            · exact hwtR it h2
            · exact hwt2 it h2
        · refine wf_of_eq hwf2 ?_ ?_
          · simp only [List.length_cons, List.length_append, List.length_nil,
              List.length_map]
            omega
          · simp [List.append_assoc]
      | true =>
        have hwA : Wf ⟨st.nextId + 1 + newr.length + 1,
            st.items ++ [sdPackageRec env wt pck (env.util_filename pck.getFilePath)
              parent st.nextId] ++ newr
              ++ [sdPackageArchiveRec env wt pck (env.util_filename pck.getFilePath)
                   st.nextId (st.nextId + 1 + newr.length)], st.events⟩ :=
          Wf.snoc hwfR' rfl st.events
        obtain ⟨newrest, heq2, hty2, hwt2, hwf2⟩ := ih
          (items0 ++ [st.nextId] ++ List.map (fun it => it.id) newr
            ++ [st.nextId + 1 + newr.length])
          ⟨st.nextId + 1 + newr.length + 1,
           st.items ++ [sdPackageRec env wt pck (env.util_filename pck.getFilePath)
             parent st.nextId] ++ newr
             ++ [sdPackageArchiveRec env wt pck (env.util_filename pck.getFilePath)
                  st.nextId (st.nextId + 1 + newr.length)], st.events⟩ hwA
        refine ⟨sdPackageRec env wt pck (env.util_filename pck.getFilePath)
          parent st.nextId ::
          (newr ++ [sdPackageArchiveRec env wt pck (env.util_filename pck.getFilePath)
            st.nextId (st.nextId + 1 + newr.length)] ++ newrest), ?_, ?_, ?_, ?_⟩
        · simp only [SDpackages]
          simp only [sd_package_item_eq env wt pck parent
            (env.util_filename pck.getFilePath) st hw]
          rw [heqR]
          simp only [Bool.false_or, hm, hc, Bool.false_eq_true, if_false,
            eq_self_iff_true, if_true]
          simp only [sd_package_archive_item_eq env wt pck st.nextId
            (env.util_filename pck.getFilePath)
            ⟨st.nextId + 1 + newr.length,
             st.items ++ [sdPackageRec env wt pck (env.util_filename pck.getFilePath)
               parent st.nextId] ++ newr, st.events⟩ hwfR']
          rw [heq2]
          simp only [Prod.mk.injEq, CState.mk.injEq, List.map_cons, List.map_append,
            List.length_cons, List.length_append, List.length_map, List.append_assoc,
            List.singleton_append, List.cons_append, sdPackageRec, sdPackageArchiveRec,
            List.map_nil, List.nil_append, List.length_nil, and_true, true_and]
          omega
        · simp only [List.map_cons, List.map_append, htyR, hty2, List.flatMap_cons,
            pckTys, hm, hc, Bool.false_eq_true, if_false, eq_self_iff_true, if_true,
            sdPackageRec, sdPackageArchiveRec, List.map_nil, List.append_nil,
            List.append_assoc, List.singleton_append, List.cons_append, List.nil_append]
        · intro it hit
          rcases List.mem_cons.mp hit with h | h
          · subst h; rfl
          · rcases List.mem_append.mp h with h2 | h2
            · rcases List.mem_append.mp h2 with h3 | h3
              · exact hwtR it h3
              · rw [List.mem_singleton.mp h3]; rfl
            · exact hwt2 it h2
        · refine wf_of_eq hwf2 ?_ ?_
          · simp only [List.length_cons, List.length_append, List.length_nil,
              List.length_map]
            omega
          · simp [List.append_assoc]
    | true =>
      have hwM : Wf ⟨st.nextId + 1 + newr.length + 1,
          st.items ++ [sdPackageRec env wt pck (env.util_filename pck.getFilePath)
            parent st.nextId] ++ newr
            ++ [sdPackageMdlRec env wt pck (env.util_filename pck.getFilePath)
                 st.nextId (st.nextId + 1 + newr.length)], st.events⟩ :=
        Wf.snoc hwfR' rfl st.events
      cases hc : pck.getChildrenResources.any SDResource.isCompGraph with
      | false =>
        obtain ⟨newrest, heq2, hty2, hwt2, hwf2⟩ := ih
          (items0 ++ [st.nextId] ++ List.map (fun it => it.id) newr
            ++ [st.nextId + 1 + newr.length])
          ⟨st.nextId + 1 + newr.length + 1,
           st.items ++ [sdPackageRec env wt pck (env.util_filename pck.getFilePath)
             parent st.nextId] ++ newr
             ++ [sdPackageMdlRec env wt pck (env.util_filename pck.getFilePath)
                  st.nextId (st.nextId + 1 + newr.length)], st.events⟩ hwM
        refine ⟨sdPackageRec env wt pck (env.util_filename pck.getFilePath)
          parent st.nextId ::
          (newr ++ [sdPackageMdlRec env wt pck (env.util_filename pck.getFilePath)
            st.nextId (st.nextId + 1 + newr.length)] ++ newrest), ?_, ?_, ?_, ?_⟩
        · simp only [SDpackages]
          simp only [sd_package_item_eq env wt pck parent
            (env.util_filename pck.getFilePath) st hw]
          rw [heqR]
          simp only [Bool.false_or, hm, hc, Bool.false_eq_true, if_false,
            eq_self_iff_true, if_true]
          simp only [sd_package_mdl_item_eq env wt pck st.nextId
            (env.util_filename pck.getFilePath)
            ⟨st.nextId + 1 + newr.length,
             st.items ++ [sdPackageRec env wt pck (env.util_filename pck.getFilePath)
               parent st.nextId] ++ newr, st.events⟩ hwfR']
          rw [heq2]
          simp only [Prod.mk.injEq, CState.mk.injEq, List.map_cons, List.map_append,
            List.length_cons, List.length_append, List.length_map, List.append_assoc,
            List.singleton_append, List.cons_append, sdPackageRec, sdPackageMdlRec,
            List.map_nil, List.nil_append, List.length_nil, and_true, true_and]
          omega
        · simp only [List.map_cons, List.map_append, htyR, hty2, List.flatMap_cons,
            pckTys, hm, hc, Bool.false_eq_true, if_false, eq_self_iff_true, if_true,
            sdPackageRec, sdPackageMdlRec, List.map_nil, List.append_nil,
            List.append_assoc, List.singleton_append, List.cons_append, List.nil_append]
        · intro it hit
          rcases List.mem_cons.mp hit with h | h
          · subst h; rfl
          · rcases List.mem_append.mp h with h2 | h2
            · rcases List.mem_append.mp h2 with h3 | h3
              · exact hwtR it h3
              · rw [List.mem_singleton.mp h3]; rfl
            · exact hwt2 it h2
        · refine wf_of_eq hwf2 ?_ ?_
          · simp only [List.length_cons, List.length_append, List.length_nil,
              List.length_map]
            omega
          · simp [List.append_assoc]
      | true =>
        have hwA2 : Wf ⟨st.nextId + 1 + newr.length + 1 + 1,
            st.items ++ [sdPackageRec env wt pck (env.util_filename pck.getFilePath)
              parent st.nextId] ++ newr
              ++ [sdPackageMdlRec env wt pck (env.util_filename pck.getFilePath)
                   st.nextId (st.nextId + 1 + newr.length)]
              ++ [sdPackageArchiveRec env wt pck (env.util_filename pck.getFilePath)
                   st.nextId (st.nextId + 1 + newr.length + 1)], st.events⟩ :=
          Wf.snoc hwM rfl st.events
        obtain ⟨newrest, heq2, hty2, hwt2, hwf2⟩ := ih
          (items0 ++ [st.nextId] ++ List.map (fun it => it.id) newr
            ++ [st.nextId + 1 + newr.length] ++ [st.nextId + 1 + newr.length + 1])
          ⟨st.nextId + 1 + newr.length + 1 + 1,
           st.items ++ [sdPackageRec env wt pck (env.util_filename pck.getFilePath)
             parent st.nextId] ++ newr
             ++ [sdPackageMdlRec env wt pck (env.util_filename pck.getFilePath)
                  st.nextId (st.nextId + 1 + newr.length)]
             ++ [sdPackageArchiveRec env wt pck (env.util_filename pck.getFilePath)
                  st.nextId (st.nextId + 1 + newr.length + 1)], st.events⟩ hwA2
        refine ⟨sdPackageRec env wt pck (env.util_filename pck.getFilePath)
          parent st.nextId ::
          (newr ++ [sdPackageMdlRec env wt pck (env.util_filename pck.getFilePath)
            st.nextId (st.nextId + 1 + newr.length)]
            ++ [sdPackageArchiveRec env wt pck (env.util_filename pck.getFilePath)
                 st.nextId (st.nextId + 1 + newr.length + 1)] ++ newrest),
          ?_, ?_, ?_, ?_⟩
        · simp only [SDpackages]
          simp only [sd_package_item_eq env wt pck parent
            (env.util_filename pck.getFilePath) st hw]
          rw [heqR]
          simp only [Bool.false_or, hm, hc, eq_self_iff_true, if_true]
          simp only [sd_package_mdl_item_eq env wt pck st.nextId
            (env.util_filename pck.getFilePath)
            ⟨st.nextId + 1 + newr.length,
             st.items ++ [sdPackageRec env wt pck (env.util_filename pck.getFilePath)
               parent st.nextId] ++ newr, st.events⟩ hwfR']
          simp only [sd_package_archive_item_eq env wt pck st.nextId
            (env.util_filename pck.getFilePath)
            ⟨st.nextId + 1 + newr.length + 1,
             st.items ++ [sdPackageRec env wt pck (env.util_filename pck.getFilePath)
               parent st.nextId] ++ newr
               ++ [sdPackageMdlRec env wt pck (env.util_filename pck.getFilePath)
                    st.nextId (st.nextId + 1 + newr.length)], st.events⟩ hwM]
          rw [heq2]
          simp only [Prod.mk.injEq, CState.mk.injEq, List.map_cons, List.map_append,
            List.length_cons, List.length_append, List.length_map, List.append_assoc,
            List.singleton_append, List.cons_append, sdPackageRec, sdPackageMdlRec,
            sdPackageArchiveRec, List.map_nil, List.nil_append, List.length_nil,
            and_true, true_and]
          omega
        · simp only [List.map_cons, List.map_append, htyR, hty2, List.flatMap_cons,
            pckTys, hm, hc, eq_self_iff_true, if_true, sdPackageRec, sdPackageMdlRec,
            sdPackageArchiveRec, List.map_nil, List.append_nil, List.append_assoc,
            List.singleton_append, List.cons_append, List.nil_append]
        · intro it hit
          rcases List.mem_cons.mp hit with h | h
          · subst h; rfl
          · rcases List.mem_append.mp h with h2 | h2
            · rcases List.mem_append.mp h2 with h3 | h3
              · rcases List.mem_append.mp h3 with h4 | h4
                · exact hwtR it h4
                · rw [List.mem_singleton.mp h4]; rfl
              · rw [List.mem_singleton.mp h3]; rfl
            · exact hwt2 it h2
        · refine wf_of_eq hwf2 ?_ ?_
          · simp only [List.length_cons, List.length_append, List.length_nil,
              List.length_map]
            omega
          · simp [List.append_assoc]

end SubstanceDesignerSessionCollector

/-- The state carried by a collector outcome, also on the exception path. -/
def resultState : Except CState CState → CState
  | Except.ok st => st
  | Except.error st => st

/-- Whether a collector call ended in an escaping exception. -/
def isErr : Except CState CState → Bool
  | Except.ok _ => false
  | Except.error _ => true

/-- A positive `countP` forces `any` to hold. -/
theorem any_of_countP_pos {α : Type} {p : α → Bool} {l : List α}
    (h : 0 < l.countP p) : l.any p = true := by
  induction l with
  | nil => simp [List.countP_nil] at h
  | cons a t ih =>
    cases hp : p a with
    | true => simp [List.any_cons, hp]
    | false =>
      rw [List.countP_cons] at h
      simp only [hp, Bool.false_eq_true, if_false, Nat.add_zero] at h
      simp only [List.any_cons, hp, Bool.false_or]
      exact ih h

namespace SubstanceDesignerSessionCollector

/-- Number of textures items the resource walk produces. -/
theorem count_tyOfRes_textures (rs : List SDResource) :
    (rs.flatMap tyOfRes).count "substancedesigner.graph.textures" =
      rs.countP SDResource.isCompGraph := by
  induction rs with
  | nil => rfl
  | cons r rest ih =>
    cases r <;>
      simp [tyOfRes, List.flatMap_cons, List.count_append, List.count_cons,
        List.countP_cons, SDResource.isCompGraph, SDResource.isMdlGraph, ih]

/-- Number of MDLE items the resource walk produces. -/
theorem count_tyOfRes_mdle (rs : List SDResource) :
    (rs.flatMap tyOfRes).count "substancedesigner.graph.mdle" =
      rs.countP SDResource.isMdlGraph := by
  induction rs with
  | nil => rfl
  | cons r rest ih =>
    cases r <;>
      simp [tyOfRes, List.flatMap_cons, List.count_append, List.count_cons,
        List.countP_cons, SDResource.isCompGraph, SDResource.isMdlGraph, ih]

/-- Number of preset items the resource walk produces. -/
theorem count_tyOfRes_preset (rs : List SDResource) :
    (rs.flatMap tyOfRes).count "substancedesigner.graph.preset" =
      rs.countP SDResource.isMdlGraph := by
  induction rs with
  | nil => rfl
  | cons r rest ih =>
    cases r <;>
      simp [tyOfRes, List.flatMap_cons, List.count_append, List.count_cons,
        List.countP_cons, SDResource.isCompGraph, SDResource.isMdlGraph, ih]

/-- The resource walk never produces package-level item types. -/
theorem count_tyOfRes_pkglevel (rs : List SDResource) (s : String)
    (h1 : s ≠ "substancedesigner.graph.textures")
    (h2 : s ≠ "substancedesigner.graph.mdle")
    (h3 : s ≠ "substancedesigner.graph.preset") :
    (rs.flatMap tyOfRes).count s = 0 := by
  induction rs with
  | nil => rfl
  | cons r rest ih =>
    cases r <;>
      simp [tyOfRes, List.flatMap_cons, List.count_append, List.count_cons, ih,
        Ne.symm h1, Ne.symm h2, Ne.symm h3]

/-- Length of the resource walk's item-type list. -/
theorem length_tyOfRes (rs : List SDResource) :
    (rs.flatMap tyOfRes).length =
      rs.countP SDResource.isCompGraph + 2 * rs.countP SDResource.isMdlGraph := by
  induction rs with
  | nil => rfl
  | cons r rest ih =>
    cases r <;>
      simp [tyOfRes, List.flatMap_cons, List.length_append, List.countP_cons,
        SDResource.isCompGraph, SDResource.isMdlGraph, Bool.false_eq_true, if_false,
        ih] <;> omega

end SubstanceDesignerSessionCollector

/-- Claim C5: `get_export_path` yields nothing whenever `Work Template` or
`Work Export Template` is unset; when both are set it returns exactly the
path obtained by extracting the current project path's fields through the
work template and applying them to the work-export template. -/
theorem C5_get_export_path (env : SubstancePainterSessionCollector.SPEnv)
    (settings : SubstancePainterSessionCollector.SPSettings) :
    ((settings.workTemplate = none ∨ settings.workExportTemplate = none) →
      SubstancePainterSessionCollector.get_export_path env settings = none) ∧
    (∀ wn en, settings.workTemplate = some wn → settings.workExportTemplate = some en →
      SubstancePainterSessionCollector.get_export_path env settings =
        some (env.apply_fields (env.get_template_by_name en)
          (env.get_fields (env.get_template_by_name wn)
            env.get_current_project_path))) := by
  constructor
  · intro h
    rcases h with h | h <;>
      cases h2 : settings.workExportTemplate <;>
        cases h3 : settings.workTemplate <;>
          simp_all [SubstancePainterSessionCollector.get_export_path]
  · intro wn en h1 h2
    simp [SubstancePainterSessionCollector.get_export_path, h1, h2]

/-- A concrete painter host environment used by witnesses. -/
def spEnvW : SubstancePainterSessionCollector.SPEnv :=
  { get_current_project_path := "/proj/scene.spp",
    get_project_export_path := "/fallback",
    get_template_by_name := fun n => ⟨n⟩,
    get_fields := fun _ _ => [("name", "scene")],
    apply_fields := fun t _ => "/exp/" ++ t.name,
    export_document_maps := fun _ => some [],
    listdir := fun _ => some [],
    path_exists := fun _ => false,
    util_filename := fun p => (os_path_split p).2,
    disk_location := "/cfg/hooks/tk-multi-publish2/basic" }

/-- Witness for C5 at a concrete environment: unset work template gives no
path; both templates set give the fields-applied export path. -/
theorem C5_get_export_path_witness :
    SubstancePainterSessionCollector.get_export_path spEnvW
      ⟨none, some "exp_tpl", some true⟩ = none ∧
    SubstancePainterSessionCollector.get_export_path spEnvW
      ⟨some "work_tpl", some "exp_tpl", some true⟩ = some "/exp/exp_tpl" := by
  constructor
  · exact (C5_get_export_path spEnvW ⟨none, some "exp_tpl", some true⟩).1 (Or.inl rfl)
  · have h := (C5_get_export_path spEnvW
      ⟨some "work_tpl", some "exp_tpl", some true⟩).2 "work_tpl" "exp_tpl" rfl rfl
    simpa using h

/-- A concrete designer host environment with one empty user package. -/
def sdEnvC2 : SubstanceDesignerSessionCollector.SDEnv :=
  { userPackages := [⟨"/p/pack.sbs", []⟩],
    get_template_by_name := fun n => ⟨n⟩,
    util_filename := fun p => (os_path_split p).2,
    disk_location := "/cfg/hooks/tk-multi-publish2/basic" }

/-- Counterexample to C2: with one (empty) user package,
`process_current_session` does not return the flat list of created items —
`items.append(session_item)` wraps the collected list in another list. -/
theorem C2_counterexample :
    ¬ ((SubstanceDesignerSessionCollector.process_current_session sdEnvC2 ⟨none⟩ 0
          CState.empty).1 =
       ((SubstanceDesignerSessionCollector.collect_current_substancedesigner_session
          sdEnvC2 ⟨none⟩ 0 CState.empty).1).map
         SubstanceDesignerSessionCollector.PyVal.item) := by
  decide

/-- Claim C2 (amended): `process_current_session` returns the empty list when
the collected flat list is empty, and otherwise a one-element list containing
the collected flat list itself as a single (wrapped) element; the state is
passed through unchanged. -/
theorem C2_amended_return_shape (env : SubstanceDesignerSessionCollector.SDEnv)
    (settings : SubstanceDesignerSessionCollector.SDSettings) (parent : Nat)
    (st : CState) :
    SubstanceDesignerSessionCollector.process_current_session env settings parent st =
      (let r := SubstanceDesignerSessionCollector.collect_current_substancedesigner_session
          env settings parent st
       (if r.1.isEmpty then []
        else [SubstanceDesignerSessionCollector.PyVal.itemList r.1], r.2)) := by
  rcases h : SubstanceDesignerSessionCollector.collect_current_substancedesigner_session
    env settings parent st with ⟨a, b⟩
  simp [SubstanceDesignerSessionCollector.process_current_session, h]

/-- Claim C9: the 3-D collector's `process_current_session` always creates
exactly one session item and exactly one `blender.session.geometry` child
named "All Session Geometry" under it, with only an icon and no properties,
no matter how `Work Template` is configured. -/
theorem C9_blender_session_and_geometry (env : BlenderSessionCollector.BLEnv)
    (settings : BlenderSessionCollector.BLSettings) :
    ∃ sess geo : Item,
      (BlenderSessionCollector.process_current_session env settings 0
        CState.empty).items = [sess, geo] ∧
      sess.item_type = "blender.session" ∧
      geo.item_type = "blender.session.geometry" ∧
      geo.display_name = "All Session Geometry" ∧
      geo.parent = sess.id ∧
      geo.properties = [] ∧
      geo.icon = some (ospathJoin [env.disk_location, "..", "icons", "geometry.png"]) := by
  have h1 : BlenderSessionCollector.process_current_session env settings 0 CState.empty =
      ⟨3, [BlenderSessionCollector.blSessionRec env settings 0 1,
           BlenderSessionCollector.blGeometryRec env 1 2], []⟩ := by
    simp only [BlenderSessionCollector.process_current_session,
      BlenderSessionCollector.collect_current_blender_session_eq env settings 0
        CState.empty wf_empty]
    simp only [CState.empty, List.nil_append]
    rw [BlenderSessionCollector.collect_session_geometry_eq env 1
      ⟨1 + 1, [BlenderSessionCollector.blSessionRec env settings 0 1], []⟩
      (@Wf.snoc CState.empty wf_empty
        (BlenderSessionCollector.blSessionRec env settings 0 1) rfl [])]
    rfl
  refine ⟨BlenderSessionCollector.blSessionRec env settings 0 1,
          BlenderSessionCollector.blGeometryRec env 1 2, ?_, rfl, rfl, rfl, rfl, rfl, rfl⟩
  rw [h1]

namespace SubstancePainterSessionCollector

/-- The folder-item paragraph does not touch the event trace. -/
theorem textures_folder_item_events (env : SPEnv) (ep : String) (parent : Nat)
    (st : CState) : (textures_folder_item env ep parent st).events = st.events := rfl

/-- The texture-item paragraph does not touch the event trace. -/
theorem texture_file_item_events (tf icon : String) (parent : Nat) (st : CState) :
    (texture_file_item tf icon parent st).events = st.events := rfl

/-- The inner texture loop does not touch the event trace. -/
theorem textureSetLoop_events (env : SPEnv) (parent : Nat) (icon : String)
    (ts : List (String × String)) :
    ∀ st : CState, (textureSetLoop env parent icon ts st).events = st.events := by
  induction ts with
  | nil => intro st; rfl
  | cons hd rest ih =>
    intro st
    obtain ⟨a, b⟩ := hd
    cases hpe : env.path_exists b with
    | true =>
      simp only [textureSetLoop, hpe, eq_self_iff_true, if_true]
      rw [ih, texture_file_item_events]
    | false =>
      simp only [textureSetLoop, hpe, Bool.false_eq_true, if_false]
      exact ih st

/-- The outer texture loop does not touch the event trace. -/
theorem texturesLoop_events (env : SPEnv) (parent : Nat) (icon : String)
    (m : List (String × List (String × String))) :
    ∀ st : CState, (texturesLoop env parent icon m st).events = st.events := by
  induction m with
  | nil => intro st; rfl
  | cons hd rest ih =>
    intro st
    obtain ⟨a, ts⟩ := hd
    simp only [texturesLoop]
    rw [ih, textureSetLoop_events]

end SubstancePainterSessionCollector

/-- Claim C7: in both texture-collection operations, `show_busy` is recorded
before the `export_document_maps` call and `clear_busy` immediately after it
on the normal return path; when the export call raises, `clear_busy` is never
recorded (the trace ends at the export attempt). -/
theorem C7_busy_bracketing (env : SubstancePainterSessionCollector.SPEnv)
    (settings : SubstancePainterSessionCollector.SPSettings) (parent : Nat)
    (st : CState) :
    (resultState (SubstancePainterSessionCollector.collect_textures_as_folder
        env settings parent st)).events =
      st.events ++ [Event.showBusy,
        Event.exportMapsCall
          (SubstancePainterSessionCollector.resolved_export_path env settings)] ++
      (match env.export_document_maps
          (SubstancePainterSessionCollector.resolved_export_path env settings) with
       | some _ => [Event.clearBusy]
       | none => []) ∧
    (resultState (SubstancePainterSessionCollector.collect_textures
        env settings parent st)).events =
      st.events ++ [Event.showBusy,
        Event.exportMapsCall
          (SubstancePainterSessionCollector.resolved_export_path env settings)] ++
      (match env.export_document_maps
          (SubstancePainterSessionCollector.resolved_export_path env settings) with
       | some _ => [Event.clearBusy]
       | none => []) := by
  constructor
  · cases hexp : env.export_document_maps
      (SubstancePainterSessionCollector.resolved_export_path env settings) with
    | none =>
      simp [SubstancePainterSessionCollector.collect_textures_as_folder, hexp,
        resultState, CState.emit, List.append_assoc]
    | some m =>
      by_cases hep : SubstancePainterSessionCollector.resolved_export_path env settings = ""
      · rw [hep] at hexp
        simp [SubstancePainterSessionCollector.collect_textures_as_folder, hexp, hep,
          resultState, CState.emit, List.append_assoc]
      · cases hls : env.listdir
          (SubstancePainterSessionCollector.resolved_export_path env settings) with
        | none =>
          simp [SubstancePainterSessionCollector.collect_textures_as_folder, hexp, hep,
            hls, resultState, CState.emit, List.append_assoc]
        | some ts =>
          cases ts with
          | nil =>
            simp [SubstancePainterSessionCollector.collect_textures_as_folder, hexp,
              hep, hls, resultState, CState.emit, List.append_assoc]
          | cons f fs =>
            simp [SubstancePainterSessionCollector.collect_textures_as_folder, hexp,
              hep, hls, resultState, CState.emit,
              SubstancePainterSessionCollector.textures_folder_item_events,
              List.append_assoc]
  · cases hexp : env.export_document_maps
      (SubstancePainterSessionCollector.resolved_export_path env settings) with
    | none =>
      simp [SubstancePainterSessionCollector.collect_textures, hexp, resultState,
        CState.emit, List.append_assoc]
    | some m =>
      simp [SubstancePainterSessionCollector.collect_textures, hexp, resultState,
        CState.emit, SubstancePainterSessionCollector.texturesLoop_events,
        List.append_assoc]

/-- A concrete painter host environment whose export directory is set but
does not exist on disk (its `os.listdir` raises). -/
def spEnvC3 : SubstancePainterSessionCollector.SPEnv :=
  { get_current_project_path := "/proj/scene.spp",
    get_project_export_path := "/exp",
    get_template_by_name := fun n => ⟨n⟩,
    get_fields := fun _ _ => [],
    apply_fields := fun _ _ => "",
    export_document_maps := fun _ => some [],
    listdir := fun _ => none,
    path_exists := fun _ => false,
    util_filename := fun p => (os_path_split p).2,
    disk_location := "/cfg/hooks/tk-multi-publish2/basic" }

/-- Counterexample to C3: with a resolved export path that does not exist on
disk (`os.listdir` raises), `collect_textures_as_folder` does raise — the
condition is not absorbed silently as the claim states. -/
theorem C3_counterexample :
    spEnvC3.listdir (SubstancePainterSessionCollector.resolved_export_path spEnvC3
      ⟨none, none, some true⟩) = none ∧
    isErr (SubstancePainterSessionCollector.collect_textures_as_folder spEnvC3
      ⟨none, none, some true⟩ 0 CState.empty) = true := by
  decide

/-- Claim C3 (amended): in folder mode, when the export call succeeds, a falsy
(empty) export path or a listing that yields no files is absorbed silently —
no item is created and no error is raised; but a non-empty export path that
does not exist on disk makes the directory listing raise, and that error
propagates. -/
theorem C3_amended_folder_mode (env : SubstancePainterSessionCollector.SPEnv)
    (settings : SubstancePainterSessionCollector.SPSettings) (parent : Nat)
    (st : CState) (m : List (String × List (String × String)))
    (hexp : env.export_document_maps
      (SubstancePainterSessionCollector.resolved_export_path env settings) = some m) :
    ((SubstancePainterSessionCollector.resolved_export_path env settings = "" ∨
      env.listdir (SubstancePainterSessionCollector.resolved_export_path env settings) =
        some []) →
      ∃ stF, SubstancePainterSessionCollector.collect_textures_as_folder env settings
          parent st = Except.ok stF ∧ stF.items = st.items) ∧
    ((SubstancePainterSessionCollector.resolved_export_path env settings ≠ "" ∧
      env.listdir (SubstancePainterSessionCollector.resolved_export_path env settings) =
        none) →
      isErr (SubstancePainterSessionCollector.collect_textures_as_folder env settings
        parent st) = true) := by
  constructor
  · intro h
    refine ⟨⟨st.nextId, st.items, st.events ++ [Event.showBusy,
      Event.exportMapsCall
        (SubstancePainterSessionCollector.resolved_export_path env settings),
      Event.clearBusy]⟩, ?_, rfl⟩
    rcases h with hep | hls
    · rw [hep] at hexp ⊢
      simp [SubstancePainterSessionCollector.collect_textures_as_folder, hexp, hep,
        CState.emit, List.append_assoc]
    · by_cases hep : SubstancePainterSessionCollector.resolved_export_path env settings = ""
      · rw [hep] at hexp ⊢
        simp [SubstancePainterSessionCollector.collect_textures_as_folder, hexp, hep,
          CState.emit, List.append_assoc]
      · simp [SubstancePainterSessionCollector.collect_textures_as_folder, hexp, hep,
          hls, CState.emit, List.append_assoc]
  · intro h
    obtain ⟨hep, hls⟩ := h
    simp [SubstancePainterSessionCollector.collect_textures_as_folder, hexp, hep, hls,
      isErr]

/-- A concrete painter host environment whose resolved export path is empty. -/
def spEnvC3b : SubstancePainterSessionCollector.SPEnv :=
  { get_current_project_path := "/proj/scene.spp",
    get_project_export_path := "",
    get_template_by_name := fun n => ⟨n⟩,
    get_fields := fun _ _ => [],
    apply_fields := fun _ _ => "",
    export_document_maps := fun _ => some [],
    listdir := fun _ => some [],
    path_exists := fun _ => false,
    util_filename := fun p => (os_path_split p).2,
    disk_location := "/cfg/hooks/tk-multi-publish2/basic" }

/-- Witness for the amended C3: an unset export path is absorbed silently,
while a set-but-missing directory raises. -/
theorem C3_amended_folder_mode_witness :
    (∃ stF, SubstancePainterSessionCollector.collect_textures_as_folder spEnvC3b
        ⟨none, none, some true⟩ 0 CState.empty = Except.ok stF ∧
      stF.items = CState.empty.items) ∧
    isErr (SubstancePainterSessionCollector.collect_textures_as_folder spEnvC3
      ⟨none, none, some true⟩ 0 CState.empty) = true := by
  constructor
  · exact (C3_amended_folder_mode spEnvC3b ⟨none, none, some true⟩ 0 CState.empty []
      rfl).1 (Or.inl rfl)
  · exact (C3_amended_folder_mode spEnvC3 ⟨none, none, some true⟩ 0 CState.empty []
      rfl).2 ⟨by decide, rfl⟩

namespace SubstancePainterSessionCollector

/-- Folder mode on the happy path: export succeeds, the export path is
truthy, and its listing is non-empty; exactly the folder item is appended. -/
theorem collect_textures_as_folder_success (env : SPEnv) (settings : SPSettings)
    (parent : Nat) (st : CState) (hw : Wf st)
    (m : List (String × List (String × String)))
    (hexp : env.export_document_maps (resolved_export_path env settings) = some m)
    (f : String) (fs : List String)
    (hls : env.listdir (resolved_export_path env settings) = some (f :: fs))
    (hep : resolved_export_path env settings ≠ "") :
    collect_textures_as_folder env settings parent st = Except.ok
      ⟨st.nextId + 1,
       st.items ++ [texturesFolderRec env (resolved_export_path env settings)
         parent st.nextId],
       st.events ++ [Event.showBusy,
         Event.exportMapsCall (resolved_export_path env settings),
         Event.clearBusy]⟩ := by
  simp [collect_textures_as_folder, hexp, hls, hep, CState.emit,
    textures_folder_item_eq env (resolved_export_path env settings) parent
      ⟨st.nextId, st.items,
       st.events ++ [Event.showBusy,
         Event.exportMapsCall (resolved_export_path env settings), Event.clearBusy]⟩
      (wf_of_eq hw rfl rfl),
    List.append_assoc]

end SubstancePainterSessionCollector

/-- Claim C4: with `Publish Textures as Folder` configured true and a truthy
export path whose listing is non-empty (and a successful export call),
`process_current_session` creates exactly one `substancepainter.textures`
item — `path` equal to the export directory and `publish_type` "Texture
Folder" — and no `substancepainter.texture` item. -/
theorem C4_folder_publish (env : SubstancePainterSessionCollector.SPEnv)
    (settings : SubstancePainterSessionCollector.SPSettings)
    (hfolder : settings.publishTexturesAsFolder = some true)
    (m : List (String × List (String × String)))
    (hexp : env.export_document_maps
      (SubstancePainterSessionCollector.resolved_export_path env settings) = some m)
    (f : String) (fs : List String)
    (hls : env.listdir
      (SubstancePainterSessionCollector.resolved_export_path env settings) =
      some (f :: fs))
    (hep : SubstancePainterSessionCollector.resolved_export_path env settings ≠ "") :
    ∃ stF, SubstancePainterSessionCollector.process_current_session env settings 0
        CState.empty = Except.ok stF ∧
      stF.items.countP
        (fun it => it.item_type == "substancepainter.textures") = 1 ∧
      stF.items.countP
        (fun it => it.item_type == "substancepainter.texture") = 0 ∧
      ∀ it ∈ stF.items, it.item_type = "substancepainter.textures" →
        getProp it.properties "path" =
          some (PValue.str
            (SubstancePainterSessionCollector.resolved_export_path env settings)) ∧
        getProp it.properties "publish_type" = some (PValue.str "Texture Folder") := by
  have hstep : SubstancePainterSessionCollector.process_current_session env settings 0
      CState.empty =
      SubstancePainterSessionCollector.collect_textures_as_folder env settings 1
        ⟨2, [SubstancePainterSessionCollector.spSessionRec env settings 0 1], []⟩ := by
    simp [SubstancePainterSessionCollector.process_current_session,
      SubstancePainterSessionCollector.collect_current_substancepainter_session_eq
        env settings 0 ⟨1, [], []⟩ wf_empty, hfolder, CState.empty]
  have hfold := SubstancePainterSessionCollector.collect_textures_as_folder_success
    env settings 1 ⟨2, [SubstancePainterSessionCollector.spSessionRec env settings 0 1], []⟩
    (@Wf.snoc CState.empty wf_empty
      (SubstancePainterSessionCollector.spSessionRec env settings 0 1) rfl [])
    m hexp f fs hls hep
  refine ⟨⟨2 + 1,
    [SubstancePainterSessionCollector.spSessionRec env settings 0 1] ++
      [SubstancePainterSessionCollector.texturesFolderRec env
        (SubstancePainterSessionCollector.resolved_export_path env settings) 1 2],
    [] ++ [Event.showBusy,
      Event.exportMapsCall
        (SubstancePainterSessionCollector.resolved_export_path env settings),
      Event.clearBusy]⟩, ?_, ?_, ?_, ?_⟩
  · rw [hstep, hfold]
  · simp [SubstancePainterSessionCollector.spSessionRec,
      SubstancePainterSessionCollector.texturesFolderRec, List.countP_cons,
      List.countP_nil]
  · simp [SubstancePainterSessionCollector.spSessionRec,
      SubstancePainterSessionCollector.texturesFolderRec, List.countP_cons,
      List.countP_nil]
  · intro it hit hty
    rcases List.mem_append.mp hit with h | h
    · rw [List.mem_singleton.mp h] at hty
      simp [SubstancePainterSessionCollector.spSessionRec] at hty
    · rw [List.mem_singleton.mp h]
      constructor <;> rfl

/-- A concrete painter host environment for the C4 witness: both templates
configured, export succeeding, a non-empty export directory on disk. -/
def spEnvC4 : SubstancePainterSessionCollector.SPEnv :=
  { get_current_project_path := "/proj/scene.spp",
    get_project_export_path := "/fallback",
    get_template_by_name := fun n => ⟨n⟩,
    get_fields := fun _ _ => [("name", "scene")],
    apply_fields := fun t _ => "/exp/" ++ t.name,
    export_document_maps := fun _ => some [],
    listdir := fun _ => some ["height.png"],
    path_exists := fun _ => true,
    util_filename := fun p => (os_path_split p).2,
    disk_location := "/cfg/hooks/tk-multi-publish2/basic" }

/-- Witness for C4 at a concrete environment. -/
theorem C4_folder_publish_witness :
    ∃ stF, SubstancePainterSessionCollector.process_current_session spEnvC4
        ⟨some "w", some "e", some true⟩ 0 CState.empty = Except.ok stF ∧
      stF.items.countP
        (fun it => it.item_type == "substancepainter.textures") = 1 ∧
      stF.items.countP
        (fun it => it.item_type == "substancepainter.texture") = 0 ∧
      ∀ it ∈ stF.items, it.item_type = "substancepainter.textures" →
        getProp it.properties "path" =
          some (PValue.str
            (SubstancePainterSessionCollector.resolved_export_path spEnvC4
              ⟨some "w", some "e", some true⟩)) ∧
        getProp it.properties "publish_type" = some (PValue.str "Texture Folder") :=
  C4_folder_publish spEnvC4 ⟨some "w", some "e", some true⟩ rfl [] rfl "height.png" []
    rfl (by decide)

/-- Claim C6: in per-texture mode (with the export call succeeding), one
`substancepainter.texture` item is created per export-result entry whose file
exists on disk — named after the file's base name with its extension
stripped, with `path` the file path and `publish_type` "Texture" — and
entries whose file does not exist produce nothing, with no error raised. -/
theorem C6_per_texture_items (env : SubstancePainterSessionCollector.SPEnv)
    (settings : SubstancePainterSessionCollector.SPSettings) (parent : Nat)
    (m : List (String × List (String × String)))
    (hexp : env.export_document_maps
      (SubstancePainterSessionCollector.resolved_export_path env settings) = some m) :
    ∃ stF, SubstancePainterSessionCollector.collect_textures env settings parent
        CState.empty = Except.ok stF ∧
      stF.items.map SubstancePainterSessionCollector.textureView =
        (m.flatMap fun ts => ts.2).filterMap (fun tf =>
          if env.path_exists tf.2 then
            some (SubstancePainterSessionCollector.expectedTextureView tf.2)
          else none) := by
  obtain ⟨new, heq, hview, _, _⟩ :=
    SubstancePainterSessionCollector.texturesLoop_char env parent
      (ospathJoin [env.disk_location, "..", "icons", "texture.png"]) m
      ⟨1, [],
       [Event.showBusy,
        Event.exportMapsCall
          (SubstancePainterSessionCollector.resolved_export_path env settings),
        Event.clearBusy]⟩
      (fun x hx => absurd hx (List.not_mem_nil x))
  refine ⟨⟨1 + new.length, [] ++ new,
    [Event.showBusy,
     Event.exportMapsCall
       (SubstancePainterSessionCollector.resolved_export_path env settings),
     Event.clearBusy]⟩, ?_, ?_⟩
  · simp [SubstancePainterSessionCollector.collect_textures, hexp, CState.emit,
      CState.empty, heq]
  · simpa using hview

/-- A concrete painter host environment for the C6 witness, matching the
spec's example: two exported files that exist, one that does not. -/
def spEnvC6 : SubstancePainterSessionCollector.SPEnv :=
  { get_current_project_path := "/proj/scene.spp",
    get_project_export_path := "/tmp",
    get_template_by_name := fun n => ⟨n⟩,
    get_fields := fun _ _ => [],
    apply_fields := fun _ _ => "",
    export_document_maps := fun _ =>
      some [("set1", [("diffuse", "/tmp/a_diffuse.png"), ("normal", "/tmp/a_normal.png"),
                      ("missing", "/tmp/a_gone.png")])],
    listdir := fun _ => some [],
    path_exists := fun p => p != "/tmp/a_gone.png",
    util_filename := fun p => (os_path_split p).2,
    disk_location := "/cfg/hooks/tk-multi-publish2/basic" }

/-- Witness for C6: at the concrete environment, exactly the two existing
files become texture items named "a_diffuse" and "a_normal". -/
theorem C6_per_texture_items_witness :
    (∃ stF, SubstancePainterSessionCollector.collect_textures spEnvC6
        ⟨none, none, some false⟩ 1 CState.empty = Except.ok stF ∧
      stF.items.map SubstancePainterSessionCollector.textureView =
        (([("set1", [("diffuse", "/tmp/a_diffuse.png"), ("normal", "/tmp/a_normal.png"),
            ("missing", "/tmp/a_gone.png")])] :
            List (String × List (String × String))).flatMap fun ts => ts.2).filterMap
          (fun tf =>
            if spEnvC6.path_exists tf.2 then
              some (SubstancePainterSessionCollector.expectedTextureView tf.2)
            else none)) ∧
    SubstancePainterSessionCollector.expectedTextureView "/tmp/a_diffuse.png" =
      ("substancepainter.texture", "a_diffuse",
       some (PValue.str "/tmp/a_diffuse.png"), some (PValue.str "Texture")) ∧
    SubstancePainterSessionCollector.expectedTextureView "/tmp/a_normal.png" =
      ("substancepainter.texture", "a_normal",
       some (PValue.str "/tmp/a_normal.png"), some (PValue.str "Texture")) :=
  ⟨C6_per_texture_items spEnvC6 ⟨none, none, some false⟩ 1
      [("set1", [("diffuse", "/tmp/a_diffuse.png"), ("normal", "/tmp/a_normal.png"),
        ("missing", "/tmp/a_gone.png")])] rfl,
   by decide, by decide⟩

namespace SubstancePainterSessionCollector

/-- Whatever branch `process_current_session` takes — and also when the
export call or the directory listing raises — the registered items are the
incoming ones, then the session item, then items that never carry a
`work_template` property. -/
theorem SP_process_items_char (env : SPEnv) (settings : SPSettings) (parent : Nat)
    (st : CState) (hw : Wf st) :
    ∃ new : List Item,
      (resultState (process_current_session env settings parent st)).items =
        st.items ++ spSessionRec env settings parent st.nextId :: new ∧
      ∀ it ∈ new, getProp it.properties "work_template" = none := by
  have hsess := collect_current_substancepainter_session_eq env settings parent st hw
  have hw1 : Wf ⟨st.nextId + 1,
      st.items ++ [spSessionRec env settings parent st.nextId], st.events⟩ :=
    Wf.snoc hw rfl st.events
  by_cases hfold : settings.publishTexturesAsFolder = some true
  · cases hexp : env.export_document_maps (resolved_export_path env settings) with
    | none =>
      refine ⟨[], ?_, by simp⟩
      simp [process_current_session, hsess, hfold, collect_textures_as_folder, hexp,
        resultState, CState.emit]
    | some m =>
      by_cases hep : resolved_export_path env settings = ""
      · refine ⟨[], ?_, by simp⟩
        rw [hep] at hexp
        simp [process_current_session, hsess, hfold, collect_textures_as_folder, hexp,
          hep, resultState, CState.emit]
      · cases hls : env.listdir (resolved_export_path env settings) with
        | none =>
          refine ⟨[], ?_, by simp⟩
          simp [process_current_session, hsess, hfold, collect_textures_as_folder,
            hexp, hep, hls, resultState, CState.emit]
        | some ts =>
          cases ts with
          | nil =>
            refine ⟨[], ?_, by simp⟩
            simp [process_current_session, hsess, hfold, collect_textures_as_folder,
              hexp, hep, hls, resultState, CState.emit]
          | cons f fs =>
            refine ⟨[texturesFolderRec env (resolved_export_path env settings)
              st.nextId (st.nextId + 1)], ?_, ?_⟩
            · simp [process_current_session, hsess, hfold, resultState,
                collect_textures_as_folder_success env settings st.nextId
                  ⟨st.nextId + 1,
                   st.items ++ [spSessionRec env settings parent st.nextId],
                   st.events⟩ hw1 m hexp f fs hls hep,
                List.append_assoc]
            · intro it hit
              rw [List.mem_singleton.mp hit]
              rfl
  · cases hexp : env.export_document_maps (resolved_export_path env settings) with
    | none =>
      refine ⟨[], ?_, by simp⟩
      simp [process_current_session, hsess, hfold, collect_textures, hexp,
        resultState, CState.emit]
    | some m =>
      obtain ⟨new, heq, hview, hwt, hwf⟩ := texturesLoop_char env st.nextId
        (ospathJoin [env.disk_location, "..", "icons", "texture.png"]) m
        ⟨st.nextId + 1, st.items ++ [spSessionRec env settings parent st.nextId],
         st.events ++ [Event.showBusy,
           Event.exportMapsCall (resolved_export_path env settings),
           Event.clearBusy]⟩ (wf_of_eq hw1 rfl rfl)
      refine ⟨new, ?_, hwt⟩
      simp [process_current_session, hsess, hfold, collect_textures, hexp,
        CState.emit, heq, resultState, List.append_assoc]

end SubstancePainterSessionCollector

/-- Claim C8: every item created by any of the three collectors that carries
a `work_template` property stores exactly the template object obtained from
name resolution (`get_template_by_name` applied to the configured name),
never a field-resolved path string. -/
theorem C8_work_template_unresolved :
    (∀ (env : SubstancePainterSessionCollector.SPEnv)
       (settings : SubstancePainterSessionCollector.SPSettings),
      ∀ it ∈ (resultState (SubstancePainterSessionCollector.process_current_session
          env settings 0 CState.empty)).items,
        ∀ v, getProp it.properties "work_template" = some v →
          v = PValue.templateObj
            (settings.workTemplate.map env.get_template_by_name)) ∧
    (∀ (env : SubstanceDesignerSessionCollector.SDEnv)
       (settings : SubstanceDesignerSessionCollector.SDSettings),
      ∀ it ∈ (SubstanceDesignerSessionCollector.collect_current_substancedesigner_session
          env settings 0 CState.empty).2.items,
        ∀ v, getProp it.properties "work_template" = some v →
          v = PValue.templateObj
            (settings.workTemplate.map env.get_template_by_name)) ∧
    (∀ (env : BlenderSessionCollector.BLEnv)
       (settings : BlenderSessionCollector.BLSettings),
      ∀ it ∈ (BlenderSessionCollector.process_current_session env settings 0
          CState.empty).items,
        ∀ v, getProp it.properties "work_template" = some v →
          v = PValue.templateObj
            (settings.workTemplate.map env.get_template_by_name)) := by
  refine ⟨?_, ?_, ?_⟩
  · intro env settings it hit v hv
    obtain ⟨new, hitems, hnone⟩ :=
      SubstancePainterSessionCollector.SP_process_items_char env settings 0
        CState.empty wf_empty
    rw [hitems] at hit
    simp only [CState.empty, List.nil_append, List.mem_cons] at hit
    rcases hit with h | h
    · subst h
      cases hset : settings.workTemplate with
      | none =>
        simp [SubstancePainterSessionCollector.spSessionRec, hset, getProp] at hv
      | some n =>
        simp [SubstancePainterSessionCollector.spSessionRec, hset, getProp] at hv
        subst hv
        rfl
    · rw [hnone it h] at hv
      exact absurd hv (by simp)
  · intro env settings it hit v hv
    obtain ⟨new, heq, hty, hwt, hwf⟩ :=
      SubstanceDesignerSessionCollector.SDpackages_char env
        (match settings.workTemplate with
         | some n => some (env.get_template_by_name n)
         | none => none) 0 env.userPackages [] CState.empty wf_empty
    have h2 : (SubstanceDesignerSessionCollector.collect_current_substancedesigner_session
        env settings 0 CState.empty).2.items = CState.empty.items ++ new := by
      simp [SubstanceDesignerSessionCollector.collect_current_substancedesigner_session,
        heq]
    rw [h2] at hit
    simp only [CState.empty, List.nil_append] at hit
    have h3 := hwt it hit
    rw [h3] at hv
    have h4 := Option.some.inj hv
    subst h4
    cases hset : settings.workTemplate <;> simp [hset]
  · intro env settings it hit v hv
    have h1 : BlenderSessionCollector.process_current_session env settings 0 CState.empty =
        ⟨3, [BlenderSessionCollector.blSessionRec env settings 0 1,
             BlenderSessionCollector.blGeometryRec env 1 2], []⟩ := by
      simp only [BlenderSessionCollector.process_current_session,
        BlenderSessionCollector.collect_current_blender_session_eq env settings 0
          CState.empty wf_empty]
      simp only [CState.empty, List.nil_append]
      rw [BlenderSessionCollector.collect_session_geometry_eq env 1
        ⟨1 + 1, [BlenderSessionCollector.blSessionRec env settings 0 1], []⟩
        (@Wf.snoc CState.empty wf_empty
          (BlenderSessionCollector.blSessionRec env settings 0 1) rfl [])]
      rfl
    rw [h1] at hit
    simp only [List.mem_cons, List.mem_singleton] at hit
    rcases hit with h | h | h
    · subst h
      cases hset : settings.workTemplate with
      | none =>
        simp [BlenderSessionCollector.blSessionRec, hset, getProp] at hv
      | some n =>
        simp [BlenderSessionCollector.blSessionRec, hset, getProp] at hv
        subst hv
        rfl
    · subst h
      simp [BlenderSessionCollector.blGeometryRec, getProp] at hv
    · exact absurd h (by simp)

/-- Witness for C8: at a concrete environment with `Work Template` set to
"tpl", the stored value is the template object resolved from that name. -/
theorem C8_work_template_unresolved_witness :
    PValue.templateObj (some (Template.mk "tpl")) =
      PValue.templateObj
        ((⟨some "tpl", none, some true⟩ :
          SubstancePainterSessionCollector.SPSettings).workTemplate.map
          spEnvW.get_template_by_name) :=
  C8_work_template_unresolved.1 spEnvW ⟨some "tpl", none, some true⟩
    (SubstancePainterSessionCollector.spSessionRec spEnvW
      ⟨some "tpl", none, some true⟩ 0 1)
    (by decide) (PValue.templateObj (some (Template.mk "tpl"))) (by decide)

/-- Claim C10: when `Work Template` is absent the painter and blender session
items carry neither a `work_template` nor a `publish_type` key (both appear
together exactly when the setting is configured), whereas every Substance
Designer item always carries the `work_template` key, with the Python `None`
placeholder as its value when the setting is absent. -/
theorem C10_work_template_key_presence :
    (∀ (env : SubstancePainterSessionCollector.SPEnv)
       (settings : SubstancePainterSessionCollector.SPSettings)
       (parent : Nat) (st : CState), Wf st →
      ∃ it : Item,
        (SubstancePainterSessionCollector.collect_current_substancepainter_session
          env settings parent st).2.items = st.items ++ [it] ∧
        (settings.workTemplate = none →
          getProp it.properties "work_template" = none ∧
          getProp it.properties "publish_type" = none) ∧
        (∀ n, settings.workTemplate = some n →
          getProp it.properties "work_template" =
            some (PValue.templateObj (some (env.get_template_by_name n))) ∧
          getProp it.properties "publish_type" =
            some (PValue.str SESSION_PUBLISHED_TYPE))) ∧
    (∀ (env : BlenderSessionCollector.BLEnv)
       (settings : BlenderSessionCollector.BLSettings)
       (parent : Nat) (st : CState), Wf st →
      ∃ it : Item,
        (BlenderSessionCollector.collect_current_blender_session
          env settings parent st).2.items = st.items ++ [it] ∧
        (settings.workTemplate = none →
          getProp it.properties "work_template" = none ∧
          getProp it.properties "publish_type" = none) ∧
        (∀ n, settings.workTemplate = some n →
          getProp it.properties "work_template" =
            some (PValue.templateObj (some (env.get_template_by_name n))) ∧
          getProp it.properties "publish_type" =
            some (PValue.str "Blender Project File"))) ∧
    (∀ (env : SubstanceDesignerSessionCollector.SDEnv)
       (settings : SubstanceDesignerSessionCollector.SDSettings)
       (parent : Nat) (st : CState), Wf st →
      ∃ new : List Item,
        (SubstanceDesignerSessionCollector.collect_current_substancedesigner_session
          env settings parent st).2.items = st.items ++ new ∧
        (∀ it ∈ new, getProp it.properties "work_template" =
          some (PValue.templateObj
            (settings.workTemplate.map env.get_template_by_name))) ∧
        (settings.workTemplate = none →
          ∀ it ∈ new, getProp it.properties "work_template" =
            some (PValue.templateObj none))) := by
  refine ⟨?_, ?_, ?_⟩
  · intro env settings parent st hw
    refine ⟨SubstancePainterSessionCollector.spSessionRec env settings parent
      st.nextId, ?_, ?_, ?_⟩
    · simp [SubstancePainterSessionCollector.collect_current_substancepainter_session_eq
        env settings parent st hw]
    · intro hset
      constructor <;>
        simp [SubstancePainterSessionCollector.spSessionRec, hset, getProp]
    · intro n hset
      constructor <;>
        simp [SubstancePainterSessionCollector.spSessionRec, hset, getProp]
  · intro env settings parent st hw
    refine ⟨BlenderSessionCollector.blSessionRec env settings parent st.nextId,
      ?_, ?_, ?_⟩
    · simp [BlenderSessionCollector.collect_current_blender_session_eq
        env settings parent st hw]
    · intro hset
      constructor <;>
        simp [BlenderSessionCollector.blSessionRec, hset, getProp]
    · intro n hset
      constructor <;>
        simp [BlenderSessionCollector.blSessionRec, hset, getProp]
  · intro env settings parent st hw
    obtain ⟨new, heq, hty, hwt, hwf⟩ :=
      SubstanceDesignerSessionCollector.SDpackages_char env
        (match settings.workTemplate with
         | some n => some (env.get_template_by_name n)
         | none => none) parent env.userPackages [] st hw
    refine ⟨new, ?_, ?_, ?_⟩
    · simp [SubstanceDesignerSessionCollector.collect_current_substancedesigner_session,
        heq]
    · intro it h
      rw [hwt it h]
      cases hset : settings.workTemplate <;> simp [hset]
    · intro hset it h
      rw [hwt it h]
      simp [hset]

/-- Witness for C10 at concrete environments: the painter collector with the
setting absent, and the designer collector (one package) with the setting
absent. -/
theorem C10_work_template_key_presence_witness :
    (∃ it : Item,
      (SubstancePainterSessionCollector.collect_current_substancepainter_session
        spEnvW ⟨none, none, some true⟩ 0 CState.empty).2.items =
          CState.empty.items ++ [it] ∧
      ((⟨none, none, some true⟩ :
          SubstancePainterSessionCollector.SPSettings).workTemplate = none →
        getProp it.properties "work_template" = none ∧
        getProp it.properties "publish_type" = none) ∧
      (∀ n, (⟨none, none, some true⟩ :
          SubstancePainterSessionCollector.SPSettings).workTemplate = some n →
        getProp it.properties "work_template" =
          some (PValue.templateObj (some (spEnvW.get_template_by_name n))) ∧
        getProp it.properties "publish_type" =
          some (PValue.str SESSION_PUBLISHED_TYPE))) ∧
    (∃ new : List Item,
      (SubstanceDesignerSessionCollector.collect_current_substancedesigner_session
        sdEnvC2 ⟨none⟩ 0 CState.empty).2.items = CState.empty.items ++ new ∧
      (∀ it ∈ new, getProp it.properties "work_template" =
        some (PValue.templateObj
          ((⟨none⟩ : SubstanceDesignerSessionCollector.SDSettings).workTemplate.map
            sdEnvC2.get_template_by_name))) ∧
      ((⟨none⟩ : SubstanceDesignerSessionCollector.SDSettings).workTemplate = none →
        ∀ it ∈ new, getProp it.properties "work_template" =
          some (PValue.templateObj none))) :=
  ⟨C10_work_template_key_presence.1 spEnvW ⟨none, none, some true⟩ 0 CState.empty
      wf_empty,
   C10_work_template_key_presence.2.2 sdEnvC2 ⟨none⟩ 0 CState.empty wf_empty⟩

/-- Claim C1: with exactly one user package holding exactly one compositing
graph and exactly one material graph, the flat list built by
`collect_current_substancedesigner_session` is exactly the created items and
holds six of them — one of each of the six designer item types. -/
theorem C1_one_package_six_items (env : SubstanceDesignerSessionCollector.SDEnv)
    (settings : SubstanceDesignerSessionCollector.SDSettings)
    (pck : SDPackage) (hpkgs : env.userPackages = [pck])
    (hcomp : pck.getChildrenResources.countP SDResource.isCompGraph = 1)
    (hmdl : pck.getChildrenResources.countP SDResource.isMdlGraph = 1) :
    (SubstanceDesignerSessionCollector.collect_current_substancedesigner_session
      env settings 0 CState.empty).1.length = 6 ∧
    (SubstanceDesignerSessionCollector.collect_current_substancedesigner_session
      env settings 0 CState.empty).1 =
      (SubstanceDesignerSessionCollector.collect_current_substancedesigner_session
        env settings 0 CState.empty).2.items.map (fun it => it.id) ∧
    ((SubstanceDesignerSessionCollector.collect_current_substancedesigner_session
      env settings 0 CState.empty).2.items.map (fun it => it.item_type)).count
        "substancedesigner.package" = 1 ∧
    ((SubstanceDesignerSessionCollector.collect_current_substancedesigner_session
      env settings 0 CState.empty).2.items.map (fun it => it.item_type)).count
        "substancedesigner.graph.textures" = 1 ∧
    ((SubstanceDesignerSessionCollector.collect_current_substancedesigner_session
      env settings 0 CState.empty).2.items.map (fun it => it.item_type)).count
        "substancedesigner.graph.mdle" = 1 ∧
    ((SubstanceDesignerSessionCollector.collect_current_substancedesigner_session
      env settings 0 CState.empty).2.items.map (fun it => it.item_type)).count
        "substancedesigner.graph.preset" = 1 ∧
    ((SubstanceDesignerSessionCollector.collect_current_substancedesigner_session
      env settings 0 CState.empty).2.items.map (fun it => it.item_type)).count
        "substancedesigner.package.mdl" = 1 ∧
    ((SubstanceDesignerSessionCollector.collect_current_substancedesigner_session
      env settings 0 CState.empty).2.items.map (fun it => it.item_type)).count
        "substancedesigner.package.archive" = 1 := by
  have hany_c : pck.getChildrenResources.any SDResource.isCompGraph = true :=
    any_of_countP_pos (by omega)
  have hany_m : pck.getChildrenResources.any SDResource.isMdlGraph = true :=
    any_of_countP_pos (by omega)
  obtain ⟨new, heq, hty, hwt, hwf⟩ :=
    SubstanceDesignerSessionCollector.SDpackages_char env
      (match settings.workTemplate with
       | some n => some (env.get_template_by_name n)
       | none => none) 0 env.userPackages [] CState.empty wf_empty
  have hr1 : SubstanceDesignerSessionCollector.collect_current_substancedesigner_session
      env settings 0 CState.empty =
      ([] ++ new.map (fun it => it.id),
       ⟨CState.empty.nextId + new.length, CState.empty.items ++ new,
        CState.empty.events⟩) := by
    simp [SubstanceDesignerSessionCollector.collect_current_substancedesigner_session,
      heq]
  rw [hpkgs] at hty
  simp only [List.flatMap_cons, List.flatMap_nil, List.append_nil] at hty
  have hlen : new.length = 6 := by
    have h0 := congrArg List.length hty
    simp only [List.length_map] at h0
    rw [h0]
    simp only [SubstanceDesignerSessionCollector.pckTys, hany_c, hany_m,
      eq_self_iff_true, if_true, List.length_cons, List.length_append,
      List.length_nil, SubstanceDesignerSessionCollector.length_tyOfRes,
      hcomp, hmdl]
  refine ⟨?_, ?_, ?_, ?_, ?_, ?_, ?_, ?_⟩
  · rw [hr1]
    simp [CState.empty, hlen]
  · rw [hr1]
    simp [CState.empty]
  · rw [hr1]
    simp only [CState.empty, List.nil_append, hty]
    simp [SubstanceDesignerSessionCollector.pckTys, hany_c, hany_m,
      List.count_cons, List.count_append,
      SubstanceDesignerSessionCollector.count_tyOfRes_pkglevel
        pck.getChildrenResources "substancedesigner.package"
        (by decide) (by decide) (by decide)]
  · rw [hr1]
    simp only [CState.empty, List.nil_append, hty]
    simp [SubstanceDesignerSessionCollector.pckTys, hany_c, hany_m,
      List.count_cons, List.count_append,
      SubstanceDesignerSessionCollector.count_tyOfRes_textures, hcomp]
  · rw [hr1]
    simp only [CState.empty, List.nil_append, hty]
    simp [SubstanceDesignerSessionCollector.pckTys, hany_c, hany_m,
      List.count_cons, List.count_append,
      SubstanceDesignerSessionCollector.count_tyOfRes_mdle, hmdl]
  · rw [hr1]
    simp only [CState.empty, List.nil_append, hty]
    simp [SubstanceDesignerSessionCollector.pckTys, hany_c, hany_m,
      List.count_cons, List.count_append,
      SubstanceDesignerSessionCollector.count_tyOfRes_preset, hmdl]
  · rw [hr1]
    simp only [CState.empty, List.nil_append, hty]
    simp [SubstanceDesignerSessionCollector.pckTys, hany_c, hany_m,
      List.count_cons, List.count_append,
      SubstanceDesignerSessionCollector.count_tyOfRes_pkglevel
        pck.getChildrenResources "substancedesigner.package.mdl"
        (by decide) (by decide) (by decide)]
  · rw [hr1]
    simp only [CState.empty, List.nil_append, hty]
    simp [SubstanceDesignerSessionCollector.pckTys, hany_c, hany_m,
      List.count_cons, List.count_append,
      SubstanceDesignerSessionCollector.count_tyOfRes_pkglevel
        pck.getChildrenResources "substancedesigner.package.archive"
        (by decide) (by decide) (by decide)]

/-- A concrete designer host environment with one user package holding one
compositing graph and one material graph. -/
def sdEnvC1 : SubstanceDesignerSessionCollector.SDEnv :=
  { userPackages := [⟨"/p/pack.sbs",
      [SDResource.compGraph "gComp", SDResource.mdlGraph "gMdl"]⟩],
    get_template_by_name := fun n => ⟨n⟩,
    util_filename := fun p => (os_path_split p).2,
    disk_location := "/cfg/hooks/tk-multi-publish2/basic" }

/-- Witness for C1 at the concrete one-package environment. -/
theorem C1_one_package_six_items_witness :
    (SubstanceDesignerSessionCollector.collect_current_substancedesigner_session
      sdEnvC1 ⟨none⟩ 0 CState.empty).1.length = 6 ∧
    (SubstanceDesignerSessionCollector.collect_current_substancedesigner_session
      sdEnvC1 ⟨none⟩ 0 CState.empty).1 =
      (SubstanceDesignerSessionCollector.collect_current_substancedesigner_session
        sdEnvC1 ⟨none⟩ 0 CState.empty).2.items.map (fun it => it.id) ∧
    ((SubstanceDesignerSessionCollector.collect_current_substancedesigner_session
      sdEnvC1 ⟨none⟩ 0 CState.empty).2.items.map (fun it => it.item_type)).count
        "substancedesigner.package" = 1 ∧
    ((SubstanceDesignerSessionCollector.collect_current_substancedesigner_session
      sdEnvC1 ⟨none⟩ 0 CState.empty).2.items.map (fun it => it.item_type)).count
        "substancedesigner.graph.textures" = 1 ∧
    ((SubstanceDesignerSessionCollector.collect_current_substancedesigner_session
      sdEnvC1 ⟨none⟩ 0 CState.empty).2.items.map (fun it => it.item_type)).count
        "substancedesigner.graph.mdle" = 1 ∧
    ((SubstanceDesignerSessionCollector.collect_current_substancedesigner_session
      sdEnvC1 ⟨none⟩ 0 CState.empty).2.items.map (fun it => it.item_type)).count
        "substancedesigner.graph.preset" = 1 ∧
    ((SubstanceDesignerSessionCollector.collect_current_substancedesigner_session
      sdEnvC1 ⟨none⟩ 0 CState.empty).2.items.map (fun it => it.item_type)).count
        "substancedesigner.package.mdl" = 1 ∧
    ((SubstanceDesignerSessionCollector.collect_current_substancedesigner_session
      sdEnvC1 ⟨none⟩ 0 CState.empty).2.items.map (fun it => it.item_type)).count
        "substancedesigner.package.archive" = 1 :=
  C1_one_package_six_items sdEnvC1 ⟨none⟩
    ⟨"/p/pack.sbs", [SDResource.compGraph "gComp", SDResource.mdlGraph "gMdl"]⟩
    rfl (by decide) (by decide)
